import Mathlib

/- Shallow embedding of the DresBot moderation core (DresBot.py) and proofs
   of the specification claims about it.  Python dicts are modelled as
   association lists in insertion order, machine integers as Int/Nat, and
   fallible calls as Option/Except values.  External collaborators (the
   messaging platform, the permission-schema introspection, the search
   lookup) are modelled as explicit oracle parameters. -/

set_option maxHeartbeats 1000000

namespace DresBot

/-! ## Association-list model of Python dicts -/

/-- Association-list update mirroring Python dict assignment `d[k] = v`:
the first binding of `k` is replaced in place, otherwise the binding is
appended at the end (dict insertion order). -/
def setKey {α : Type} (k : String) (v : α) : List (String × α) → List (String × α)
  | [] => [(k, v)]
  | (k', v') :: rest => if k' = k then (k, v) :: rest else (k', v') :: setKey k v rest

/-- Association-list lookup mirroring Python dict indexing and `.get`. -/
def lookupKey {α : Type} (k : String) : List (String × α) → Option α
  | [] => none
  | (k', v) :: rest => if k' = k then some v else lookupKey k rest

/-- Association-list deletion mirroring Python `del d[k]` (a dict holds a
key at most once, so deleting the first binding deletes the key). -/
def eraseKey {α : Type} (k : String) : List (String × α) → List (String × α)
  | [] => []
  | (k', v) :: rest => if k' = k then rest else (k', v) :: eraseKey k rest

/-- The keys of an association list, in order. -/
def keysOf {α : Type} (l : List (String × α)) : List String := l.map (·.1)

/-! ## Duration parser (`parse_duration`, DresBot.py lines 154-173) -/

/-- Lowercasing of a character as Python `str.lower` acts on ASCII. -/
def pyLower (c : Char) : Char :=
  if 'A' ≤ c ∧ c ≤ 'Z' then Char.ofNat (c.toNat + 32) else c

/-- Whitespace as recognised by Python `str.strip` and the regex class
`\s`, restricted to ASCII. -/
def isPySpace (c : Char) : Bool :=
  c = ' ' ∨ c = Char.ofNat 9 ∨ c = Char.ofNat 10 ∨ c = Char.ofNat 13 ∨
    c = Char.ofNat 11 ∨ c = Char.ofNat 12

/-- Python `str.strip`: drop whitespace from both ends. -/
def pyStrip (l : List Char) : List Char :=
  ((l.dropWhile isPySpace).reverse.dropWhile isPySpace).reverse

/-- Value of a (non-empty) digit string, as `int` reads it. -/
def digitsVal (l : List Char) : Nat :=
  l.foldl (fun acc c => acc * 10 + (c.toNat - 48)) 0

/-- The unit-token alternation of the regex in `parse_duration`. -/
def durationUnitTokens : List String :=
  ["s", "sec", "secs", "second", "seconds",
   "m", "min", "mins", "minute", "minutes",
   "h", "hr", "hrs", "hour", "hours",
   "d", "day", "days"]

/-- First character test, modelling `str.startswith` on a single-letter
pattern (every token in the unit alternation is non-empty). -/
def headIs (l : List Char) (c : Char) : Bool :=
  match l with
  | [] => false
  | c2 :: _ => c2 = c

/-- `parse_duration` from DresBot.py: on a falsy argument return `None`;
strip and lowercase; match `^(\d+)\s*(unit)?$`; dispatch on the first
letter of the unit, defaulting to seconds.  The result is the total number
of seconds of the returned `timedelta`. -/
def parse_duration (s : Option String) : Option Nat :=
  match s with
  | none => none
  | some str =>
    if str = "" then none
    else
      let s0 := (pyStrip str.data).map pyLower
      let ds := s0.takeWhile Char.isDigit
      let rest := s0.dropWhile Char.isDigit
      let unitPart := rest.dropWhile isPySpace
      if ds = [] then none
      else if unitPart = [] then some (digitsVal ds)
      else
        if String.mk unitPart ∈ durationUnitTokens then
          let v := digitsVal ds
          if headIs unitPart 's' then some v
          else if headIs unitPart 'm' then some (v * 60)
          else if headIs unitPart 'h' then some (v * 3600)
          else if headIs unitPart 'd' then some (v * 86400)
          else some v
        else none

/-- Seconds-per-unit table of the spec's unit vocabulary: each supported
token denotes the unit named by its first letter. -/
def unitTokenSeconds (t : String) : Option Nat :=
  if t = "s" ∨ t = "sec" ∨ t = "secs" ∨ t = "second" ∨ t = "seconds" then some 1
  else if t = "m" ∨ t = "min" ∨ t = "mins" ∨ t = "minute" ∨ t = "minutes" then some 60
  else if t = "h" ∨ t = "hr" ∨ t = "hrs" ∨ t = "hour" ∨ t = "hours" then some 3600
  else if t = "d" ∨ t = "day" ∨ t = "days" then some 86400
  else none

/-- The duration grammar exactly as the claim words it: an integer
magnitude directly followed by an optional supported unit token,
case-insensitively, with no mention of surrounding or separating
whitespace.  Everything else maps to `none`. -/
def claimDurationParse (s : Option String) : Option Nat :=
  match s with
  | none => none
  | some str =>
    let l := str.data.map pyLower
    let ds := l.takeWhile Char.isDigit
    let rest := l.dropWhile Char.isDigit
    if ds = [] then none
    else if rest = [] then some (digitsVal ds)
    else
      match unitTokenSeconds (String.mk rest) with
      | some u => some (digitsVal ds * u)
      | none => none

/-- The duration grammar as amended: the input is first stripped of
surrounding whitespace and lowercased, whitespace may separate the
magnitude from the unit token, a falsy input is rejected, and the unit
vocabulary table gives the multiplier. -/
def amendedDurationParse (s : Option String) : Option Nat :=
  match s with
  | none => none
  | some str =>
    if str = "" then none
    else
      let l := (pyStrip str.data).map pyLower
      let ds := l.takeWhile Char.isDigit
      let unitPart := (l.dropWhile Char.isDigit).dropWhile isPySpace
      if ds = [] then none
      else if unitPart = [] then some (digitsVal ds)
      else
        match unitTokenSeconds (String.mk unitPart) with
        | some u => some (digitsVal ds * u)
        | none => none

/-! ## Python `int()` on strings -/

/-- Digits with optional single underscores between digits, accumulating
the value, as Python `int` reads the part after the first digit. -/
def pyDigitsAux : List Char → Nat → Option Nat
  | [], acc => some acc
  | '_' :: c :: rest, acc =>
      if c.isDigit then pyDigitsAux rest (acc * 10 + (c.toNat - 48)) else none
  | c :: rest, acc =>
      if c.isDigit then pyDigitsAux rest (acc * 10 + (c.toNat - 48)) else none

/-- A non-empty digit group: first character must be a digit. -/
def pyDigits (l : List Char) : Option Nat :=
  match l with
  | [] => none
  | c :: rest => if c.isDigit then pyDigitsAux rest (c.toNat - 48) else none

/-- Python `int(s)`: surrounding whitespace is stripped, an optional sign
is read, then decimal digits (single underscores allowed between digits);
anything else raises, modelled as `none`. -/
def pyInt (s : String) : Option Int :=
  match pyStrip s.data with
  | '+' :: rest => (pyDigits rest).map Int.ofNat
  | '-' :: rest => (pyDigits rest).map (fun n => -(n : Int))
  | rest => (pyDigits rest).map Int.ofNat

/-! ## Authorization engine (`check_issuer_permission`, lines 186-213) -/

/-- Decision of an authorization check: the bot either proceeds or replies
with the given refusal text and stops. -/
inductive AuthResult where
  | allow
  | deny (reason : String)
deriving DecidableEq, Repr

/-- The chat-member record the role-lookup collaborator returns: the
status string and the two capability flags the core reads (`getattr`
with default `False` makes them total booleans). -/
structure MemberRec where
  status : String
  can_restrict_members : Bool
  can_delete_messages : Bool
deriving DecidableEq, Repr

/-- `check_issuer_permission`: `fetch` is the result of
`get_chat_member` (`none` when the call raises), `need` the capability
string the handler passes.  Mirrors the if-chain of lines 192-213. -/
def check_issuer_permission (fetch : Option MemberRec) (need : String) : AuthResult :=
  match fetch with
  | none => .deny ("Failed to fetch your chat permissions.")
  | some member =>
    if member.status = "creator" then .allow
    else if member.status ≠ "administrator" then
      .deny ("You must be a chat admin to use this command.")
    else if (need = "ban" ∨ need = "kick" ∨ need = "mute") ∧ member.can_restrict_members = false then
      .deny ("You don't have permission to restrict/ban members (can_restrict_members).")
    else if need = "delete" ∧ member.can_delete_messages = false then
      .deny ("You don't have permission to delete messages (can_delete_messages).")
    else .allow

/-! ## Permission mapper (`make_chat_permissions_from_dict`, lines 108-151) -/

/-- The platform's permission object; a fresh `ChatPermissions()` has no
flags set. -/
structure ChatPermissions where
  can_send_messages : Bool := false
  can_send_media_messages : Bool := false
  can_send_polls : Bool := false
  can_send_other_messages : Bool := false
  can_add_web_page_previews : Bool := false
  can_change_info : Bool := false
  can_invite_users : Bool := false
  can_pin_messages : Bool := false
deriving DecidableEq, Repr

/-- Kinds of exception a platform constructor call can raise: the code
distinguishes `TypeError` (caught in the fallback path) from everything
else. -/
inductive PyErr where
  | typeError
  | otherError
deriving DecidableEq, Repr

/-- Oracle describing the platform's `ChatPermissions` API surface:
`sigParams` is the parameter list `inspect.signature` reports (`none`
when introspection itself raises), and `construct` is keyword
construction from a dict, which may raise. -/
structure PermPlatform where
  sigParams : Option (List String)
  construct : List (String × Bool) → Except PyErr ChatPermissions

/-- The canonical permission dict `CANONICAL_PERMS` (lines 108-117). -/
def CANONICAL_PERMS : List (String × Bool) :=
  [("can_send_messages", false),
   ("can_send_media_messages", false),
   ("can_send_polls", false),
   ("can_send_other_messages", false),
   ("can_add_web_page_previews", false),
   ("can_change_info", false),
   ("can_invite_users", false),
   ("can_pin_messages", false)]

/-- Set one named flag on a permission record, ignoring unknown names. -/
def applyFlag (cp : ChatPermissions) (k : String) (v : Bool) : ChatPermissions :=
  if k = "can_send_messages" then { cp with can_send_messages := v }
  else if k = "can_send_media_messages" then { cp with can_send_media_messages := v }
  else if k = "can_send_polls" then { cp with can_send_polls := v }
  else if k = "can_send_other_messages" then { cp with can_send_other_messages := v }
  else if k = "can_add_web_page_previews" then { cp with can_add_web_page_previews := v }
  else if k = "can_change_info" then { cp with can_change_info := v }
  else if k = "can_invite_users" then { cp with can_invite_users := v }
  else if k = "can_pin_messages" then { cp with can_pin_messages := v }
  else cp

/-- Keyword construction of `ChatPermissions` from a dict of flags. -/
def applyFlags (l : List (String × Bool)) : ChatPermissions :=
  l.foldl (fun cp kv => applyFlag cp kv.1 kv.2) {}

/-- The well-behaved platform: introspection reports exactly the eight
canonical parameter names, construction succeeds on any dict whose keys
are all known and raises `TypeError` otherwise. -/
def stdPermPlatform : PermPlatform where
  sigParams := some (keysOf CANONICAL_PERMS)
  construct := fun l =>
    if l.all (fun kv => kv.1 ∈ keysOf CANONICAL_PERMS) then .ok (applyFlags l)
    else .error .typeError

/-- The alias rewrite of the fallback path: a `can_send_media_messages`
key is renamed to `can_send_other_messages` when that key is not already
present; the result is accumulated as a dict. -/
def altMapPerms (perms : List (String × Bool)) : List (String × Bool) :=
  perms.foldl
    (fun acc kv =>
      if kv.1 = "can_send_media_messages" ∧ lookupKey ("can_send_other_messages") perms = none
      then setKey ("can_send_other_messages") kv.2 acc
      else setKey kv.1 kv.2 acc)
    []

/-- `make_chat_permissions_from_dict`: filter the dict through the
introspected parameter list and construct; when introspection raises, try
direct construction, on `TypeError` retry with the alias rewrite, and on
any failure of a guarded attempt return the default object.  A
non-`TypeError` from the direct construction attempt is NOT caught and
propagates (`except TypeError:` on line 131). -/
def make_chat_permissions_from_dict (p : PermPlatform) (perms : List (String × Bool)) :
    Except PyErr ChatPermissions :=
  match p.sigParams with
  | some valid =>
    let accepted := perms.filter (fun kv => kv.1 ∈ valid)
    match p.construct accepted with
    | .ok cp => .ok cp
    | .error _ => .ok {}
  | none =>
    match p.construct perms with
    | .ok cp => .ok cp
    | .error .typeError =>
      match p.construct (altMapPerms perms) with
      | .ok cp => .ok cp
      | .error _ => .ok {}
    | .error .otherError => .error .otherError

/-- `build_full_mute_permissions` (lines 150-151). -/
def build_full_mute_permissions (p : PermPlatform) : Except PyErr ChatPermissions :=
  make_chat_permissions_from_dict p CANONICAL_PERMS

/-- The fixed unmute dict of `unmute_cmd` (lines 398-407). -/
def DEFAULT_UNMUTE_PERMS : List (String × Bool) :=
  [("can_send_messages", true),
   ("can_send_media_messages", true),
   ("can_send_polls", true),
   ("can_send_other_messages", true),
   ("can_add_web_page_previews", true),
   ("can_change_info", false),
   ("can_invite_users", true),
   ("can_pin_messages", false)]

/-! ## Persisted document model -/

/-- One chat's welcome configuration, with the dict keys of
`setwelcome_cmd` as fields. -/
structure WelcomeCfg where
  message : String
  channel_link : Option String
  last_welcome_message_id : Option Nat
deriving DecidableEq, Repr

/-- The persisted document `{"welcomes": ..., "warns": ...}`. -/
structure Document where
  welcomes : List (String × WelcomeCfg) := []
  warns : List (String × List (String × Nat)) := []
deriving DecidableEq, Repr

/-- Warn counter read for one `(chat, target)` pair, as
`STORE["warns"][chat_key].get(str(target), 0)` reads it. -/
def warnCount (doc : Document) (chatKey targetKey : String) : Nat :=
  (lookupKey targetKey ((lookupKey chatKey doc.warns).getD [])).getD 0

/-- The store mutation of `warn_cmd` (lines 433-438): `setdefault` the
chat's dict, bump the target's counter by one, and persist.  Returns the
new document and the reported count. -/
def warn_apply (doc : Document) (chatKey targetKey : String) : Document × Nat :=
  let chatMap := (lookupKey chatKey doc.warns).getD []
  let count := (lookupKey targetKey chatMap).getD 0 + 1
  ({ doc with warns := setKey chatKey (setKey targetKey count chatMap) doc.warns }, count)

/-- The store mutation of `setwelcome_cmd` (lines 462-465): overwrite the
chat's welcome config with a fresh record whose pointer is null. -/
def setwelcome_apply (doc : Document) (chatKey text : String)
    (channelLink : Option String) : Document :=
  { doc with welcomes := setKey chatKey ⟨text, channelLink, none⟩ doc.welcomes }

/-- `clearwelcome_cmd` (lines 468-478): admin-gated; delete the chat's
record when present, otherwise reply that none is configured. -/
def clearwelcome_cmd (isAdmin : Bool) (doc : Document) (chatKey : String) :
    Document × String :=
  if !isAdmin then (doc, "You must be a chat admin to clear welcome.")
  else
    match lookupKey chatKey doc.welcomes with
    | some _ => ({ doc with welcomes := eraseKey chatKey doc.welcomes }, "Welcome cleared.")
    | none => (doc, "No welcome configured.")

/-! ## Welcome lifecycle (`welcome_handler`, lines 496-553) -/

/-- A newly joined member as the handler reads it: `mention_html` is
`none` when the call raises, `full_name` is `none` when the attribute is
missing (then `str(member.id)` is used). -/
structure MemberInfo where
  uid : Int
  mention_html : Option String
  full_name : Option String
deriving DecidableEq, Repr

/-- Observable platform calls of the welcome handler. -/
inductive Effect where
  | deleteMessage (chatId : Int) (messageId : Nat)
  | sendMessage (chatId : Int) (text : String) (parseMode : Option String)
deriving DecidableEq, Repr

/-- Is the effect a send attempt? -/
def isSendEffect : Effect → Bool
  | .sendMessage _ _ _ => true
  | _ => false

/-- Is the effect a delete attempt? -/
def isDeleteEffect : Effect → Bool
  | .deleteMessage _ _ => true
  | _ => false

/-- Prefix test on character lists. -/
def listIsPre : List Char → List Char → Bool
  | [], _ => true
  | _ :: _, [] => false
  | p :: ps, c :: cs => p = c ∧ listIsPre ps cs

/-- Replace every non-overlapping occurrence of `pat` left to right, as
Python `str.replace` does; fuelled by the input length. -/
def replaceAllFuel (pat repl : List Char) : Nat → List Char → List Char
  | 0, l => l
  | fuel + 1, l =>
    match l with
    | [] => []
    | c :: rest =>
      if pat ≠ [] ∧ listIsPre pat l
      then repl ++ replaceAllFuel pat repl fuel (l.drop pat.length)
      else c :: replaceAllFuel pat repl fuel rest

/-- Python `str.replace` for a non-empty pattern. -/
def replaceAll (pat repl l : List Char) : List Char :=
  replaceAllFuel pat repl l.length l

/-- Does the string end in a newline (`text.endswith("\n")`)? -/
def endsWithNewline (l : List Char) : Bool :=
  match l.getLast? with
  | some c => c = '\n'
  | none => false

/-- Render one member's welcome text (lines 521-536): build the mention
with a plain-name fallback that never raises, substitute the
`\x7buser_mention\x7d` placeholder, and append the channel link when
configured (Python truthiness: an empty link string counts as absent). -/
def renderWelcome (template : String) (channel : Option String) (m : MemberInfo) :
    String × Option String :=
  let mention : String × Option String :=
    match m.mention_html with
    | some h => (h, some ("HTML"))
    | none => (m.full_name.getD (toString m.uid), none)
  let text := String.mk (replaceAll ("\x7buser_mention\x7d".data) mention.1.data template.data)
  let text :=
    match channel with
    | some ch =>
      if ch = "" then text
      else (if endsWithNewline text.data then text else text ++ "\n") ++ "\nChannel: " ++ ch
    | none => text
  (text, mention.2)

/-- The member loop of `welcome_handler` (lines 521-553): for each member
delete the previously captured pointer (the local `last_msg_id` read once
before the loop; Python truthiness skips id `0`), attempt the send, and
on success overwrite the stored pointer and persist; on failure the store
is untouched.  `sendResult i` is the platform's answer to the `i`-th send
attempt of this event. -/
def welcomeLoop (chatKey : String) (chatId : Int) (template : String)
    (channel : Option String) (lastId : Option Nat) (sendResult : Nat → Option Nat) :
    List MemberInfo → Nat → Document → Document × List Effect
  | [], _, doc => (doc, [])
  | m :: ms, i, doc =>
    let tp := renderWelcome template channel m
    let delEffs : List Effect :=
      match lastId with
      | some mid => if mid ≠ 0 then [.deleteMessage chatId mid] else []
      | none => []
    let doc' : Document :=
      match sendResult i with
      | some newId =>
        { doc with welcomes := setKey chatKey ⟨template, channel, some newId⟩ doc.welcomes }
      | none => doc
    let restR := welcomeLoop chatKey chatId template channel lastId sendResult ms (i + 1) doc'
    (restR.1, delEffs ++ (Effect.sendMessage chatId tp.1 tp.2 :: restR.2))

/-- `welcome_handler`: nothing happens without new members or without a
welcome config for the chat; otherwise run the member loop with the
config's template, channel link and captured previous pointer. -/
def welcome_handler (doc : Document) (chatId : Int) (members : List MemberInfo)
    (sendResult : Nat → Option Nat) : Document × List Effect :=
  if members.isEmpty then (doc, [])
  else
    let chatKey := toString chatId
    match lookupKey chatKey doc.welcomes with
    | none => (doc, [])
    | some cfg =>
      welcomeLoop chatKey chatId cfg.message cfg.channel_link
        cfg.last_welcome_message_id sendResult members 0 doc

/-! ## Moderation commands (lines 276-439) -/

/-- Platform mutation calls the moderation commands attempt. -/
inductive PCall where
  | banChatMember (chatId target : Int) (untilDate : Option Nat)
  | unbanChatMember (chatId target : Int)
  | restrictChatMember (chatId target : Int) (perms : ChatPermissions) (untilDate : Option Nat)
deriving DecidableEq, Repr

/-- Oracle for the platform-mutation collaborator: whether each call
succeeds, and the exception text reported when one fails. -/
structure Platform where
  ok : PCall → Bool
  errText : String

/-- Target resolution shared by kick/ban/unban/unmute/warn (for example
lines 280-290): a reply wins, else the first argument must be an integer,
else the command replies with a usage error. -/
def resolveTarget (replyTo : Option Int) (args : List String) (usage : String) :
    Except String Int :=
  match replyTo with
  | some uid => .ok uid
  | none =>
    match args with
    | [] => .error usage
    | a :: _ =>
      match pyInt a with
      | some n => .ok n
      | none => .error ("Provide numeric user id or reply.")

/-- `kick_cmd` (lines 276-297): authorization with capability `kick`,
target resolution, then ban followed by unban; a failure of either call
is reported as a single failure.  Returns the attempted platform calls
and the replies sent. -/
def kick_cmd (fetch : Option MemberRec) (p : Platform) (chatId : Int)
    (replyTo : Option Int) (args : List String) : List PCall × List String :=
  match check_issuer_permission fetch ("kick") with
  | .deny r => ([], [r])
  | .allow =>
    match resolveTarget replyTo args ("Usage: /kick <user_id or reply>") with
    | .error msg => ([], [msg])
    | .ok target =>
      let c1 := PCall.banChatMember chatId target none
      if p.ok c1 then
        let c2 := PCall.unbanChatMember chatId target
        if p.ok c2 then ([c1, c2], ["Kicked " ++ toString target ++ "."])
        else ([c1, c2], ["Failed to kick: " ++ p.errText])
      else ([c1], ["Failed to kick: " ++ p.errText])

/-- `ban_cmd` (lines 300-326): optional duration from the second
argument; `if dur:` means a parsed but zero duration is falsy and leaves
the ban permanent, with no error reported. -/
def ban_cmd (fetch : Option MemberRec) (p : Platform) (chatId : Int)
    (replyTo : Option Int) (args : List String) (now : Nat) : List PCall × List String :=
  match check_issuer_permission fetch ("ban") with
  | .deny r => ([], [r])
  | .allow =>
    match resolveTarget replyTo args ("Usage: /ban <user_id or reply> [duration]") with
    | .error msg => ([], [msg])
    | .ok target =>
      let untilDate : Option Nat :=
        match args with
        | _ :: d :: _ =>
          match parse_duration (some d) with
          | some dur => if dur ≠ 0 then some (now + dur) else none
          | none => none
        | _ => none
      let c := PCall.banChatMember chatId target untilDate
      if p.ok c then ([c], ["Banned " ++ toString target ++ "."])
      else ([c], ["Failed to ban: " ++ p.errText])

/-- `unban_cmd` (lines 328-347). -/
def unban_cmd (fetch : Option MemberRec) (p : Platform) (chatId : Int)
    (replyTo : Option Int) (args : List String) : List PCall × List String :=
  match check_issuer_permission fetch ("ban") with
  | .deny r => ([], [r])
  | .allow =>
    match resolveTarget replyTo args ("Usage: /unban <user_id or reply>") with
    | .error msg => ([], [msg])
    | .ok target =>
      let c := PCall.unbanChatMember chatId target
      if p.ok c then ([c], ["Unbanned " ++ toString target ++ "."])
      else ([c], ["Failed to unban: " ++ p.errText])

/-- Target and duration-argument resolution of `mute_cmd` (lines
354-369): in reply mode the first argument (if any) is the duration; with
explicit arguments a single bare argument is rejected as ambiguous before
anything else, then the first argument must be an integer and the second
is the duration. -/
def muteResolve (replyTo : Option Int) (args : List String) :
    Except String (Int × Option String) :=
  match replyTo with
  | some uid => .ok (uid, args.head?)
  | none =>
    match args with
    | [] => .error ("Usage: /mute <duration> (reply) OR /mute <user_id> <duration>\nExamples: 10m, 2h")
    | [_] => .error ("Reply to a user's message and use /mute <duration>, or use /mute <user_id> <duration>.")
    | a :: b :: _ =>
      match pyInt a with
      | some n => .ok (n, some b)
      | none => .error ("Provide a numeric user id or reply.")

/-- `mute_cmd` (lines 350-382): the duration is mandatory and `if not
dur:` rejects both an unparseable and a zero duration with an explicit
error before any platform call; then the full-mute permission set is
built (whose mapper may propagate a non-`TypeError` exception, hence the
`Except`) and the restriction is attempted with an absolute expiry. -/
def mute_cmd (fetch : Option MemberRec) (pp : PermPlatform) (p : Platform) (chatId : Int)
    (replyTo : Option Int) (args : List String) (now : Nat) :
    Except PyErr (List PCall × List String) :=
  match check_issuer_permission fetch ("mute") with
  | .deny r => .ok ([], [r])
  | .allow =>
    match muteResolve replyTo args with
    | .error msg => .ok ([], [msg])
    | .ok (target, durArg) =>
      match parse_duration durArg with
      | none => .ok ([], ["Invalid duration. Examples: 10m, 2h"])
      | some dur =>
        if dur = 0 then .ok ([], ["Invalid duration. Examples: 10m, 2h"])
        else
          match build_full_mute_permissions pp with
          | .error e => .error e
          | .ok perms =>
            let c := PCall.restrictChatMember chatId target perms (some (now + dur))
            if p.ok c then
              .ok ([c], ["Muted " ++ toString target ++ " for " ++ durArg.getD ("None") ++ "."])
            else .ok ([c], ["Failed to mute: " ++ p.errText])

/-- `unmute_cmd` (lines 384-414): the permission mapping happens inside
the same `try` as the restriction, so a mapper exception is caught and
reported as an unmute failure. -/
def unmute_cmd (fetch : Option MemberRec) (pp : PermPlatform) (p : Platform) (chatId : Int)
    (replyTo : Option Int) (args : List String) : List PCall × List String :=
  match check_issuer_permission fetch ("mute") with
  | .deny r => ([], [r])
  | .allow =>
    match resolveTarget replyTo args ("Usage: /unmute <user_id or reply>") with
    | .error msg => ([], [msg])
    | .ok target =>
      match make_chat_permissions_from_dict pp DEFAULT_UNMUTE_PERMS with
      | .error _ => ([], ["Failed to unmute: " ++ p.errText])
      | .ok perms =>
        let c := PCall.restrictChatMember chatId target perms none
        if p.ok c then ([c], ["Unmuted " ++ toString target ++ "."])
        else ([c], ["Failed to unmute: " ++ p.errText])

/-- `warn_cmd` (lines 417-439): capability `kick` is reused; on a
resolved target the counter for `(chat, target)` is bumped and persisted,
and the new total is reported.  No platform-mutation call is made. -/
def warn_cmd (fetch : Option MemberRec) (doc : Document) (chatId : Int)
    (replyTo : Option Int) (args : List String) : Document × List String :=
  match check_issuer_permission fetch ("kick") with
  | .deny r => (doc, [r])
  | .allow =>
    match resolveTarget replyTo args ("Usage: /warn <user_id or reply>") with
    | .error msg => (doc, [msg])
    | .ok target =>
      let r := warn_apply doc (toString chatId) (toString target)
      (r.1, ["Warned " ++ toString target ++ " (" ++ toString r.2 ++ " total)."])

/-! ## Search command (`search_cmd`, lines 219-231) -/

/-- Observable actions of the search handler. -/
inductive SearchEffect where
  | reply (text : String)
  | lookupCall (query : String)
deriving DecidableEq, Repr

/-- `search_cmd`: a blacklisted issuer is dropped silently before
anything else; then the usage check, the IP-question filter (its regex is
the oracle `isIpQ`), and the lookup whose answer (oracle `searchAnswer`,
covering the whole HTTP interaction) is sent back. -/
def search_cmd (blacklist : List Int) (userId : Int) (args : List String)
    (isIpQ : String → Bool) (searchAnswer : String → String) : List SearchEffect :=
  if userId ∈ blacklist then []
  else if args = [] then [.reply ("Usage: /search <query>")]
  else
    let query := String.intercalate (" ") args
    if isIpQ query then [.reply ("I’m not allowed to share IP address information.")]
    else [.lookupCall query, .reply (searchAnswer query)]

/-! ## Store serialization (`save_store`/`load_store`, lines 32-47)

The document is written with `json.dump(store, f, ensure_ascii=False,
indent=2)` and read back with `json.load`.  The writer below produces
exactly that text for a document-shaped store; the reader implements
`json.load` on the grammar the writer emits (string escapes, numbers,
nulls, whitespace between tokens, duplicate keys resolved by dict
insertion semantics). -/

/-- JSON string escaping of `json.dump`: the seven short escapes, then
`\u00xx` for the remaining control characters, everything else literal
(`ensure_ascii=False`). -/
def escChar (c : Char) : List Char :=
  if c = '"' then ['\\', '"']
  else if c = '\\' then ['\\', '\\']
  else if c = Char.ofNat 8 then ['\\', 'b']
  else if c = Char.ofNat 9 then ['\\', 't']
  else if c = Char.ofNat 10 then ['\\', 'n']
  else if c = Char.ofNat 12 then ['\\', 'f']
  else if c = Char.ofNat 13 then ['\\', 'r']
  else if c.toNat < 32 then
    ['\\', 'u', '0', '0', Nat.digitChar (c.toNat / 16), Nat.digitChar (c.toNat % 16)]
  else [c]

/-- Escape a whole character list. -/
def escList : List Char → List Char
  | [] => []
  | c :: cs => escChar c ++ escList cs

/-- A JSON string literal with quotes. -/
def ppJStr (s : String) : List Char :=
  '"' :: (escList s.data ++ ['"'])

/-- Decimal digits of a natural number. -/
def ppNat (n : Nat) : List Char :=
  if n < 10 then [Nat.digitChar n]
  else ppNat (n / 10) ++ [Nat.digitChar (n % 10)]
decreasing_by exact Nat.div_lt_self (by omega) (by omega)

/-- The token `null`. -/
def nullChars : List Char := ['n', 'u', 'l', 'l']

/-- Either a string or `null`. -/
def ppOptStr : Option String → List Char
  | none => nullChars
  | some s => ppJStr s

/-- Either a number or `null`. -/
def ppOptNat : Option Nat → List Char
  | none => nullChars
  | some n => ppNat n

/-- Indentation at a nesting level (`indent=2`). -/
def indentChars (level : Nat) : List Char := List.replicate (2 * level) ' '

/-- One `"key": value` item. -/
def ppEntry (k : String) (v : List Char) : List Char :=
  ppJStr k ++ (':' :: ' ' :: v)

/-- Items of an object body separated by `,\n` and indented. -/
def ppEntriesSep (level : Nat) : List (List Char) → List Char
  | [] => []
  | [e] => indentChars level ++ e
  | e :: e2 :: es => indentChars level ++ e ++ (',' :: '\n' :: ppEntriesSep level (e2 :: es))

/-- A JSON object as `json.dump` prints it with `indent=2`: `\x7b\x7d`
when empty, otherwise items on their own lines. -/
def ppObj (level : Nat) (entries : List (List Char)) : List Char :=
  if entries = [] then ['\x7b', '\x7d']
  else '\x7b' :: '\n' :: (ppEntriesSep (level + 1) entries ++ ('\n' :: (indentChars level ++ ['\x7d'])))

/-- One welcome config as an object. -/
def ppCfg (level : Nat) (c : WelcomeCfg) : List Char :=
  ppObj level
    [ppEntry ("message") (ppJStr c.message),
     ppEntry ("channel_link") (ppOptStr c.channel_link),
     ppEntry ("last_welcome_message_id") (ppOptNat c.last_welcome_message_id)]

/-- The `welcomes` map. -/
def ppWelcomes (level : Nat) (ws : List (String × WelcomeCfg)) : List Char :=
  ppObj level (ws.map (fun kv => ppEntry kv.1 (ppCfg (level + 1) kv.2)))

/-- One chat's warn counters. -/
def ppChatWarns (level : Nat) (m : List (String × Nat)) : List Char :=
  ppObj level (m.map (fun kv => ppEntry kv.1 (ppNat kv.2)))

/-- The `warns` map. -/
def ppWarns (level : Nat) (ws : List (String × List (String × Nat))) : List Char :=
  ppObj level (ws.map (fun kv => ppEntry kv.1 (ppChatWarns (level + 1) kv.2)))

/-- The whole persisted document, exactly as `json.dump(store, f,
ensure_ascii=False, indent=2)` writes it. -/
def ppDocument (d : Document) : List Char :=
  ppObj 0
    [ppEntry ("welcomes") (ppWelcomes 1 d.welcomes),
     ppEntry ("warns") (ppWarns 1 d.warns)]

/-- JSON whitespace. -/
def isJWs (c : Char) : Bool :=
  c = ' ' ∨ c = Char.ofNat 10 ∨ c = Char.ofNat 9 ∨ c = Char.ofNat 13

/-- Skip insignificant whitespace. -/
def skipWs (l : List Char) : List Char := l.dropWhile isJWs

/-- Strip an exact expected token. -/
def stripPre : List Char → List Char → Option (List Char)
  | [], l => some l
  | _ :: _, [] => none
  | t :: ts, c :: cs => if c = t then stripPre ts cs else none

/-- Demand one exact character. -/
def expectChar (c : Char) (l : List Char) : Option (List Char) :=
  match l with
  | c2 :: rest => if c2 = c then some rest else none
  | [] => none

/-- Value of a hexadecimal digit. -/
def hexVal (c : Char) : Option Nat :=
  if '0' ≤ c ∧ c ≤ '9' then some (c.toNat - 48)
  else if 'a' ≤ c ∧ c ≤ 'f' then some (c.toNat - 87)
  else if 'A' ≤ c ∧ c ≤ 'F' then some (c.toNat - 55)
  else none

/-- Decoding of a single-character escape. -/
def escDecode (e : Char) : Option Char :=
  if e = '"' then some '"'
  else if e = '\\' then some '\\'
  else if e = '/' then some '/'
  else if e = 'b' then some (Char.ofNat 8)
  else if e = 'f' then some (Char.ofNat 12)
  else if e = 'n' then some (Char.ofNat 10)
  else if e = 'r' then some (Char.ofNat 13)
  else if e = 't' then some (Char.ofNat 9)
  else none

/-- Body of a JSON string after the opening quote, returning its decoded
characters and the input after the closing quote. -/
def parseJStrAux : List Char → Option (List Char × List Char)
  | [] => none
  | c :: rest =>
    if c = '"' then some ([], rest)
    else if c = '\\' then
      match rest with
      | [] => none
      | e :: rest2 =>
        if e = 'u' then
          match rest2 with
          | h1 :: h2 :: h3 :: h4 :: rest3 =>
            match hexVal h1, hexVal h2, hexVal h3, hexVal h4, parseJStrAux rest3 with
            | some a, some b, some c2, some d2, some (s, r) =>
              some (Char.ofNat (a * 4096 + b * 256 + c2 * 16 + d2) :: s, r)
            | _, _, _, _, _ => none
          | _ => none
        else
          match escDecode e, parseJStrAux rest2 with
          | some d2, some (s, r) => some (d2 :: s, r)
          | _, _ => none
    else
      match parseJStrAux rest with
      | some (s, r) => some (c :: s, r)
      | none => none
termination_by l => l.length

/-- A quoted JSON string. -/
def parseJStr (l : List Char) : Option (List Char × List Char) :=
  match l with
  | c :: rest => if c = '"' then parseJStrAux rest else none
  | [] => none

/-- Digit run accumulating a value; stops at the first non-digit. -/
def parseNatAux : List Char → Nat → Nat × List Char
  | [], acc => (acc, [])
  | c :: rest, acc =>
    if c.isDigit then parseNatAux rest (acc * 10 + (c.toNat - 48)) else (acc, c :: rest)

/-- A JSON natural number (the only number shape the store holds). -/
def parseJNat (l : List Char) : Option (Nat × List Char) :=
  match l with
  | c :: rest => if c.isDigit then some (parseNatAux rest (c.toNat - 48)) else none
  | [] => none

/-- A number or `null`, with leading whitespace skipped. -/
def parseOptNatVal (l : List Char) : Option (Option Nat × List Char) :=
  let l := skipWs l
  match stripPre nullChars l with
  | some r => some (none, r)
  | none => (parseJNat l).map (fun p => (some p.1, p.2))

/-- A string or `null`, with leading whitespace skipped. -/
def parseOptStrVal (l : List Char) : Option (Option String × List Char) :=
  let l := skipWs l
  match stripPre nullChars l with
  | some r => some (none, r)
  | none => (parseJStr l).map (fun p => (some (String.mk p.1), p.2))

/-- A welcome-config object: the three fields in the order the store
writes them. -/
def parseCfg (l : List Char) : Option (WelcomeCfg × List Char) := do
  let l ← expectChar '\x7b' (skipWs l)
  let l ← stripPre (ppJStr ("message")) (skipWs l)
  let l ← expectChar ':' (skipWs l)
  let (msg, l) ← parseJStr (skipWs l)
  let l ← expectChar ',' (skipWs l)
  let l ← stripPre (ppJStr ("channel_link")) (skipWs l)
  let l ← expectChar ':' (skipWs l)
  let (cl, l) ← parseOptStrVal l
  let l ← expectChar ',' (skipWs l)
  let l ← stripPre (ppJStr ("last_welcome_message_id")) (skipWs l)
  let l ← expectChar ':' (skipWs l)
  let (mid, l) ← parseOptNatVal l
  let l ← expectChar '\x7d' (skipWs l)
  pure (⟨String.mk msg, cl, mid⟩, l)

/-- Key-value items of an object body, fuelled; after each value a comma
continues and a closing brace ends the object. -/
def parseEntriesAux {α : Type} (pVal : List Char → Option (α × List Char)) :
    Nat → List Char → Option (List (String × α) × List Char)
  | 0, _ => none
  | fuel + 1, l => do
    let (k, l) ← parseJStr (skipWs l)
    let l ← expectChar ':' (skipWs l)
    let (v, l) ← pVal l
    match skipWs l with
    | ',' :: rest => do
      let (es, r) ← parseEntriesAux pVal fuel rest
      pure ((String.mk k, v) :: es, r)
    | c :: rest => if c = '\x7d' then pure ([(String.mk k, v)], rest) else none
    | [] => none

/-- A JSON object of named values (`parseEntriesAux` itself skips the
leading whitespace of the first key). -/
def parseObjWith {α : Type} (pVal : List Char → Option (α × List Char)) (fuel : Nat)
    (l : List Char) : Option (List (String × α) × List Char) := do
  let l ← expectChar '\x7b' (skipWs l)
  match skipWs l with
  | c :: rest =>
    if c = '\x7d' then pure ([], rest)
    else parseEntriesAux pVal fuel l
  | [] => none

/-- Does the input begin with an item separator (comma or newline)?  Used
to describe the text that follows a printed value. -/
def sepHead (l : List Char) : Bool :=
  match l with
  | c :: _ => c = ',' ∨ c = '\n'
  | [] => false

/-- Fold parsed key-value pairs into a dict: later bindings overwrite
earlier ones in place, as Python dict building does. -/
def dictOfPairs {α : Type} (ps : List (String × α)) : List (String × α) :=
  ps.foldl (fun acc kv => setKey kv.1 kv.2 acc) []

/-- A `warns` inner object (target → count). -/
def parseChatWarns (l : List Char) : Option (List (String × Nat) × List Char) :=
  (parseObjWith (fun l2 => parseJNat (skipWs l2)) (l.length + 1) l).map
    (fun p => (dictOfPairs p.1, p.2))

/-- The whole document: a top-level object with the `welcomes` and
`warns` members in the order the store writes them. -/
def parseDocument (l : List Char) : Option (Document × List Char) := do
  let l ← expectChar '\x7b' (skipWs l)
  let l ← stripPre (ppJStr ("welcomes")) (skipWs l)
  let l ← expectChar ':' (skipWs l)
  let (ws, l) ← parseObjWith parseCfg (l.length + 1) l
  let l ← expectChar ',' (skipWs l)
  let l ← stripPre (ppJStr ("warns")) (skipWs l)
  let l ← expectChar ':' (skipWs l)
  let (wr, l) ← parseObjWith parseChatWarns (l.length + 1) l
  let l ← expectChar '\x7d' (skipWs l)
  pure ({ welcomes := dictOfPairs ws, warns := dictOfPairs wr }, l)

/-- Does the input NOT begin with a digit (used to delimit numbers)? -/
def noDigitHead (l : List Char) : Bool :=
  match l with
  | [] => true
  | c :: _ => !c.isDigit

/-- `save_store`: the file now holds exactly the dumped text (a failed
write would leave the file parameter unchanged; the claim assumes store
I/O succeeds). -/
def save_store (d : Document) : Option (List Char) :=
  some (ppDocument d)

/-- `load_store`: a missing file or unparseable content degrades to the
empty default document. -/
def load_store (file : Option (List Char)) : Document :=
  match file with
  | none => {}
  | some txt =>
    match parseDocument txt with
    | some (d, rest) => if skipWs rest = [] then d else {}
    | none => {}

/-! # Theorems -/

/-! ## Association-list facts -/

@[simp] theorem lookupKey_nil {α : Type} (k : String) : lookupKey (α := α) k [] = none := rfl

@[simp] theorem keysOf_nil {α : Type} : keysOf (α := α) [] = [] := rfl

@[simp] theorem keysOf_cons {α : Type} (p : String × α) (l : List (String × α)) :
    keysOf (p :: l) = p.1 :: keysOf l := rfl

theorem lookupKey_setKey_self {α : Type} (k : String) (v : α) (l : List (String × α)) :
    lookupKey k (setKey k v l) = some v := by
  induction l with
  | nil => simp [setKey, lookupKey]
  | cons p rest ih =>
    by_cases h : p.1 = k
    · simp [setKey, lookupKey, h]
    · simp [setKey, lookupKey, h, ih]

theorem lookupKey_setKey_ne {α : Type} (k k' : String) (v : α) (l : List (String × α))
    (h : k' ≠ k) : lookupKey k' (setKey k v l) = lookupKey k' l := by
  induction l with
  | nil => simp [setKey, lookupKey, Ne.symm h]
  | cons p rest ih =>
    by_cases hp : p.1 = k
    · simp [setKey, lookupKey, hp, h, Ne.symm h]
    · simp [setKey, lookupKey, hp, ih]

theorem lookupKey_eq_none_of_not_mem {α : Type} (k : String) (l : List (String × α))
    (h : k ∉ keysOf l) : lookupKey k l = none := by
  induction l with
  | nil => simp
  | cons p rest ih =>
    simp only [keysOf, List.map_cons, List.mem_cons] at h
    push_neg at h
    simp only [lookupKey, if_neg (Ne.symm h.1)]
    exact ih h.2

theorem lookupKey_eraseKey_self {α : Type} (k : String) (l : List (String × α))
    (h : (keysOf l).Nodup) : lookupKey k (eraseKey k l) = none := by
  induction l with
  | nil => simp [eraseKey]
  | cons p rest ih =>
    simp only [keysOf, List.map_cons, List.nodup_cons] at h
    by_cases hp : p.1 = k
    · simp only [eraseKey, hp, if_pos rfl]
      subst hp
      exact lookupKey_eq_none_of_not_mem _ _ h.1
    · simp only [eraseKey, if_neg hp, lookupKey, if_neg hp]
      exact ih h.2

theorem lookupKey_eraseKey_ne {α : Type} (k k' : String) (l : List (String × α))
    (h : k' ≠ k) : lookupKey k' (eraseKey k l) = lookupKey k' l := by
  induction l with
  | nil => simp [eraseKey]
  | cons p rest ih =>
    by_cases hp : p.1 = k
    · subst hp
      simp [eraseKey, lookupKey, if_neg (Ne.symm h)]
    · simp [eraseKey, lookupKey, hp, ih]

/-! ## Duration parser: claim C5 -/

theorem mem_tokens_iff_isSome (t : String) :
    t ∈ durationUnitTokens ↔ (unitTokenSeconds t).isSome := by
  constructor
  · intro h
    fin_cases h <;> decide
  · intro h
    unfold unitTokenSeconds at h
    split_ifs at h with h1 h2 h3 h4
    · rcases h1 with rfl | rfl | rfl | rfl | rfl <;> decide
    · rcases h2 with rfl | rfl | rfl | rfl | rfl <;> decide
    · rcases h3 with rfl | rfl | rfl | rfl | rfl <;> decide
    · rcases h4 with rfl | rfl | rfl <;> decide
    · simp at h

theorem duration_dispatch_eq (t : String) (ht : t ∈ durationUnitTokens) (v : Nat) :
    (if headIs t.data 's' then some v
     else if headIs t.data 'm' then some (v * 60)
     else if headIs t.data 'h' then some (v * 3600)
     else if headIs t.data 'd' then some (v * 86400)
     else some v)
    = match unitTokenSeconds t with
      | some u => some (v * u)
      | none => none := by
  fin_cases ht <;> simp [headIs, unitTokenSeconds]

/-- C5 counterexample: the input `"10 m"` does not match the claim's
grammar (an integer magnitude directly followed by a unit token), yet
`parse_duration` returns 600 seconds rather than null, because the code's
regex allows whitespace between the magnitude and the unit. -/
theorem C5_duration_grammar_counterexample :
    claimDurationParse (some ("10 m")) = none ∧
      parse_duration (some ("10 m")) = some 600 := by
  constructor <;> decide

/-- C5 (amended): `parse_duration` agrees everywhere with the grammar as
amended — the input is first stripped of surrounding whitespace and
lowercased, whitespace may separate the magnitude from the unit token,
and a magnitude followed by a supported unit token maps to the magnitude
times that token's unit (seconds when no token follows); every other
input, including the empty string and null, yields null, and the parser
is a total function (never throws). -/
theorem C5_parse_duration_eq_amended_grammar (s : Option String) :
    parse_duration s = amendedDurationParse s := by
  cases s with
  | none => rfl
  | some str =>
    unfold parse_duration amendedDurationParse
    by_cases hstr : str = ""
    · simp [hstr]
    · simp only [if_neg hstr]
      by_cases hds : ((pyStrip str.data).map pyLower).takeWhile Char.isDigit = []
      · simp [hds]
      · simp only [if_neg hds]
        by_cases hup : (((pyStrip str.data).map pyLower).dropWhile Char.isDigit).dropWhile isPySpace = []
        · simp [hup]
        · simp only [if_neg hup]
          by_cases hm : String.mk ((((pyStrip str.data).map pyLower).dropWhile Char.isDigit).dropWhile isPySpace) ∈ durationUnitTokens
          · rw [if_pos hm]
            exact duration_dispatch_eq _ hm _
          · rw [if_neg hm]
            have hnone : unitTokenSeconds (String.mk ((((pyStrip str.data).map pyLower).dropWhile Char.isDigit).dropWhile isPySpace)) = none := by
              rcases Option.eq_none_or_eq_some (unitTokenSeconds _) with h | ⟨u, h⟩
              · exact h
              · exact absurd ((mem_tokens_iff_isSome _).2 (by simp [h])) hm
            rw [hnone]

/-! ## Authorization: claim C1 -/

/-- C1: for every authorization check with a needed capability among
kick, ban, mute and delete — a failed member fetch is Deny; a creator is
Allow regardless of capability flags; a non-administrator is Deny; an
administrator without `can_restrict_members` is Deny naming that flag for
ban/kick/mute; an administrator without `can_delete_messages` is Deny
naming that flag for delete, independently of `can_restrict_members`;
otherwise Allow. -/
theorem C1_authorization_decision (fetch : Option MemberRec) (need : String)
    (hneed : need = "kick" ∨ need = "ban" ∨ need = "mute" ∨ need = "delete") :
    (fetch = none →
      check_issuer_permission fetch need = .deny ("Failed to fetch your chat permissions.")) ∧
    (∀ m, fetch = some m → m.status = "creator" →
      check_issuer_permission fetch need = .allow) ∧
    (∀ m, fetch = some m → m.status ≠ "creator" → m.status ≠ "administrator" →
      check_issuer_permission fetch need =
        .deny ("You must be a chat admin to use this command.")) ∧
    (∀ m, fetch = some m → m.status = "administrator" →
      (need = "ban" ∨ need = "kick" ∨ need = "mute") → m.can_restrict_members = false →
      check_issuer_permission fetch need =
        .deny ("You don't have permission to restrict/ban members (can_restrict_members).")) ∧
    (∀ m, fetch = some m → m.status = "administrator" → need = "delete" →
      m.can_delete_messages = false →
      check_issuer_permission fetch need =
        .deny ("You don't have permission to delete messages (can_delete_messages).")) ∧
    (∀ m, fetch = some m → m.status = "administrator" →
      ((need = "ban" ∨ need = "kick" ∨ need = "mute") → m.can_restrict_members = true) →
      (need = "delete" → m.can_delete_messages = true) →
      check_issuer_permission fetch need = .allow) := by
  refine ⟨?_, ?_, ?_, ?_, ?_, ?_⟩
  · rintro rfl
    rfl
  · rintro m rfl hc
    simp [check_issuer_permission, hc]
  · rintro m rfl hc ha
    simp [check_issuer_permission, hc, ha]
  · rintro m rfl ha hbkm hr
    have hnc : m.status ≠ "creator" := by simp [ha]
    simp [check_issuer_permission, ha, hnc, hbkm, hr]
  · rintro m rfl ha hd hcd
    have hnc : m.status ≠ "creator" := by simp [ha]
    have hnbkm : ¬(need = "ban" ∨ need = "kick" ∨ need = "mute") := by
      subst hd; decide
    simp [check_issuer_permission, ha, hnc, hnbkm, hd, hcd]
  · rintro m rfl ha hr hd
    have hnc : m.status ≠ "creator" := by simp [ha]
    rcases hneed with rfl | rfl | rfl | rfl
    · simp [check_issuer_permission, ha, hnc, hr (by simp)]
    · simp [check_issuer_permission, ha, hnc, hr (by simp)]
    · simp [check_issuer_permission, ha, hnc, hr (by simp)]
    · simp [check_issuer_permission, ha, hnc, hd rfl]

/-- Witness for C1 at concrete inputs: an administrator lacking
`can_restrict_members` asking to mute is denied naming that flag. -/
theorem C1_authorization_decision_witness :
    check_issuer_permission (some ⟨"administrator", false, true⟩) ("mute") =
      .deny ("You don't have permission to restrict/ban members (can_restrict_members).") :=
  (C1_authorization_decision (some ⟨"administrator", false, true⟩) ("mute")
      (by decide)).2.2.2.1 ⟨"administrator", false, true⟩ rfl rfl (by decide) rfl

/-! ## Permission mapper: claim C7 -/

/-- C7: the claim's never-throws guarantee fails on the code.  When
signature introspection is unavailable and the direct construction
attempt raises a non-`TypeError` exception, the `except TypeError:`
handler of the fallback path does not catch it and the mapper propagates
the exception (first conjunct, the failing evaluation).  The claim's
canned outputs are as stated: under the well-behaved platform the
full-mute set has all eight flags false and the unmute set has all flags
true except `can_change_info` and `can_pin_messages` (second and third
conjuncts). -/
theorem C7_mapper_uncaught_exception :
    make_chat_permissions_from_dict ⟨none, fun _ => .error .otherError⟩ CANONICAL_PERMS =
      .error .otherError ∧
    build_full_mute_permissions stdPermPlatform = .ok {} ∧
    make_chat_permissions_from_dict stdPermPlatform DEFAULT_UNMUTE_PERMS =
      .ok { can_send_messages := true, can_send_media_messages := true,
            can_send_polls := true, can_send_other_messages := true,
            can_add_web_page_previews := true, can_change_info := false,
            can_invite_users := true, can_pin_messages := false } :=
  ⟨rfl, rfl, rfl⟩

/-- When introspection succeeds but construction of the filtered dict
fails, the mapper swallows the failure and returns the default object
with no flags set. -/
theorem mapper_filtered_failure_default (p : PermPlatform) (perms : List (String × Bool))
    (valid : List String) (e : PyErr) (hsig : p.sigParams = some valid)
    (hfail : p.construct (perms.filter (fun kv => kv.1 ∈ valid)) = .error e) :
    make_chat_permissions_from_dict p perms = .ok ({} : ChatPermissions) := by
  simp only [make_chat_permissions_from_dict, hsig]
  rw [hfail]

/-- When introspection fails, direct construction raises `TypeError` and
the alias retry fails with any exception, the mapper returns the default
object with no flags set (all caught failure paths degrade, they do not
throw). -/
theorem mapper_fallback_failure_default (p : PermPlatform) (perms : List (String × Bool))
    (e2 : PyErr) (hsig : p.sigParams = none)
    (hdirect : p.construct perms = .error .typeError)
    (halt : p.construct (altMapPerms perms) = .error e2) :
    make_chat_permissions_from_dict p perms = .ok ({} : ChatPermissions) := by
  simp only [make_chat_permissions_from_dict, hsig]
  rw [hdirect, halt]

/-! ## Warn counter: claim C3 -/

theorem welcomeLoop_warns (chatKey : String) (chatId : Int) (template : String)
    (channel : Option String) (lastId : Option Nat) (f : Nat → Option Nat)
    (ms : List MemberInfo) (i : Nat) (doc : Document) :
    ((welcomeLoop chatKey chatId template channel lastId f ms i doc).1).warns = doc.warns := by
  induction ms generalizing i doc with
  | nil => rfl
  | cons m ms ih =>
    simp only [welcomeLoop]
    cases f i <;> simp [ih]

theorem welcome_handler_warns (doc : Document) (chatId : Int) (ms : List MemberInfo)
    (f : Nat → Option Nat) : ((welcome_handler doc chatId ms f).1).warns = doc.warns := by
  unfold welcome_handler
  by_cases hms : ms.isEmpty
  · simp [hms]
  · simp only [hms, Bool.false_eq_true, if_false]
    cases lookupKey (toString chatId) doc.welcomes with
    | none => rfl
    | some cfg => exact welcomeLoop_warns _ _ _ _ _ _ _ _ _

/-- C3: a successful warn sets the persisted counter of its
`(chat, target)` pair to the prior value plus exactly one (also the
reported total), leaves every other pair's counter unchanged, and no
operation of this core deletes or decrements a counter: the welcome
operations do not touch the warns map at all and a warn never decreases
any counter. -/
theorem C3_warn_counter (doc : Document) (chatKey targetKey : String) :
    (warnCount (warn_apply doc chatKey targetKey).1 chatKey targetKey =
      warnCount doc chatKey targetKey + 1) ∧
    ((warn_apply doc chatKey targetKey).2 = warnCount doc chatKey targetKey + 1) ∧
    (∀ c t, ¬(c = chatKey ∧ t = targetKey) →
      warnCount (warn_apply doc chatKey targetKey).1 c t = warnCount doc c t) ∧
    (∀ ck text link, (setwelcome_apply doc ck text link).warns = doc.warns) ∧
    (∀ isAdmin ck, ((clearwelcome_cmd isAdmin doc ck).1).warns = doc.warns) ∧
    (∀ cid ms f, ((welcome_handler doc cid ms f).1).warns = doc.warns) ∧
    (∀ c t, warnCount doc c t ≤ warnCount (warn_apply doc chatKey targetKey).1 c t) := by
  have hself : warnCount (warn_apply doc chatKey targetKey).1 chatKey targetKey =
      warnCount doc chatKey targetKey + 1 := by
    simp [warn_apply, warnCount, lookupKey_setKey_self]
  have hother : ∀ c t, ¬(c = chatKey ∧ t = targetKey) →
      warnCount (warn_apply doc chatKey targetKey).1 c t = warnCount doc c t := by
    intro c t hne
    by_cases hc : c = chatKey
    · subst hc
      have ht : t ≠ targetKey := fun he => hne ⟨rfl, he⟩
      simp [warn_apply, warnCount, lookupKey_setKey_self, lookupKey_setKey_ne _ _ _ _ ht]
    · simp [warn_apply, warnCount, lookupKey_setKey_ne _ _ _ _ hc]
  refine ⟨hself, by simp [warn_apply, warnCount], hother, fun ck text link => rfl,
    ?_, fun cid ms f => welcome_handler_warns doc cid ms f, ?_⟩
  · intro isAdmin ck
    unfold clearwelcome_cmd
    by_cases hA : isAdmin
    · simp only [hA]
      cases lookupKey ck doc.welcomes <;> rfl
    · simp only [hA]
      rfl
  · intro c t
    by_cases hp : c = chatKey ∧ t = targetKey
    · rcases hp with ⟨rfl, rfl⟩
      rw [hself]
      omega
    · rw [hother c t hp]

/-- Witness for C3 at a concrete store: warning target 42 in chat 1 bumps
its counter from 3 to 4 and leaves target 43's counter alone. -/
theorem C3_warn_counter_witness :
    warnCount (warn_apply ⟨[], [("1", [("42", 3), ("43", 7)])]⟩ ("1") ("42")).1 ("1") ("42") =
        warnCount (⟨[], [("1", [("42", 3), ("43", 7)])]⟩ : Document) ("1") ("42") + 1 ∧
      warnCount (warn_apply ⟨[], [("1", [("42", 3), ("43", 7)])]⟩ ("1") ("42")).1 ("1") ("43") =
        warnCount (⟨[], [("1", [("42", 3), ("43", 7)])]⟩ : Document) ("1") ("43") :=
  ⟨(C3_warn_counter ⟨[], [("1", [("42", 3), ("43", 7)])]⟩ ("1") ("42")).1,
   (C3_warn_counter ⟨[], [("1", [("42", 3), ("43", 7)])]⟩ ("1") ("42")).2.2.1 ("1") ("43")
     (by decide)⟩

/-! ## Welcome lifecycle: claim C2 -/

theorem setKey_setKey {α : Type} (k : String) (v1 v2 : α) (l : List (String × α)) :
    setKey k v2 (setKey k v1 l) = setKey k v2 l := by
  induction l with
  | nil => simp [setKey]
  | cons p rest ih =>
    by_cases hp : p.1 = k
    · simp [setKey, hp]
    · simp [setKey, hp, ih]

theorem welcomeLoop_send_count (chatKey : String) (chatId : Int) (template : String)
    (channel : Option String) (lastId : Option Nat) (f : Nat → Option Nat)
    (ms : List MemberInfo) (i : Nat) (doc : Document) :
    ((welcomeLoop chatKey chatId template channel lastId f ms i doc).2.filter
      isSendEffect).length = ms.length := by
  induction ms generalizing i doc with
  | nil => rfl
  | cons m ms ih =>
    simp only [welcomeLoop, List.filter_append, List.length_append, List.filter_cons]
    cases lastId with
    | none =>
      simp [isSendEffect, ih]
    | some mid =>
      by_cases hm : mid ≠ 0 <;> simp [hm, isSendEffect, isDeleteEffect, ih]

theorem welcomeLoop_no_delete (chatKey : String) (chatId : Int) (template : String)
    (channel : Option String) (f : Nat → Option Nat) (ms : List MemberInfo) (i : Nat)
    (doc : Document) :
    (welcomeLoop chatKey chatId template channel none f ms i doc).2.filter
      isDeleteEffect = [] := by
  induction ms generalizing i doc with
  | nil => rfl
  | cons m ms ih =>
    simp only [welcomeLoop, List.filter_append, List.filter_cons]
    simp [isDeleteEffect, ih]

theorem welcomeLoop_final_doc (chatKey : String) (chatId : Int) (template : String)
    (channel : Option String) (lastId : Option Nat) (f : Nat → Option Nat)
    (ids : Nat → Nat) (hf : ∀ j, f j = some (ids j)) (ms : List MemberInfo) (i : Nat)
    (doc : Document) (hms : ms ≠ []) :
    (welcomeLoop chatKey chatId template channel lastId f ms i doc).1 =
      { doc with
          welcomes := setKey chatKey ⟨template, channel, some (ids (i + ms.length - 1))⟩
            doc.welcomes } := by
  induction ms generalizing i doc with
  | nil => exact absurd rfl hms
  | cons m ms ih =>
    simp only [welcomeLoop, hf i]
    cases hcase : ms with
    | nil =>
      subst hcase
      simp [welcomeLoop]
    | cons m2 ms2 =>
      rw [← hcase]
      have hne : ms ≠ [] := by simp [hcase]
      rw [ih _ _ hne]
      simp only [setKey_setKey, List.length_cons]
      have : i + 1 + ms.length - 1 = i + (ms.length + 1) - 1 := by omega
      rw [this]

/-- C2: welcome lifecycle.  (a) After configuring a chat, a join event
with any non-empty member list and successful sends emits exactly one
send per newly joined member, no delete, and persists the last sent id as
the pointer.  (b) With a previously persisted pointer, a join deletes
that id before sending the new instance and then persists the new id.
(c) After clearing, a join event does nothing.  (d) When the send fails,
the store — in particular `last_welcome_message_id` — is unchanged. -/
theorem C2_welcome_lifecycle :
    (∀ (doc : Document) (cid : Int) (t : String) (link : Option String)
       (ms : List MemberInfo) (f : Nat → Option Nat) (ids : Nat → Nat),
      ms ≠ [] → (∀ j, f j = some (ids j)) →
      ((welcome_handler (setwelcome_apply doc (toString cid) t link) cid ms f).2.filter
          isSendEffect).length = ms.length ∧
        (welcome_handler (setwelcome_apply doc (toString cid) t link) cid ms f).2.filter
          isDeleteEffect = [] ∧
        lookupKey (toString cid)
            (welcome_handler (setwelcome_apply doc (toString cid) t link) cid ms f).1.welcomes =
          some ⟨t, link, some (ids (ms.length - 1))⟩) ∧
    (∀ (doc : Document) (cid : Int) (cfg : WelcomeCfg) (m : MemberInfo)
       (f : Nat → Option Nat) (p q : Nat),
      lookupKey (toString cid) doc.welcomes = some cfg →
      cfg.last_welcome_message_id = some p → p ≠ 0 → f 0 = some q →
      welcome_handler doc cid [m] f =
        ({ doc with
             welcomes := setKey (toString cid) ⟨cfg.message, cfg.channel_link, some q⟩
               doc.welcomes },
         [.deleteMessage cid p,
          .sendMessage cid (renderWelcome cfg.message cfg.channel_link m).1
            (renderWelcome cfg.message cfg.channel_link m).2])) ∧
    (∀ (doc : Document) (cid : Int) (ms : List MemberInfo) (f : Nat → Option Nat),
      (keysOf doc.welcomes).Nodup →
      welcome_handler (clearwelcome_cmd true doc (toString cid)).1 cid ms f =
        ((clearwelcome_cmd true doc (toString cid)).1, [])) ∧
    (∀ (doc : Document) (cid : Int) (m : MemberInfo) (f : Nat → Option Nat),
      f 0 = none → (welcome_handler doc cid [m] f).1 = doc) := by
  refine ⟨?_, ?_, ?_, ?_⟩
  · intro doc cid t link ms f ids hms hf
    have hlook : lookupKey (toString cid) (setwelcome_apply doc (toString cid) t link).welcomes =
        some ⟨t, link, none⟩ := by
      simp [setwelcome_apply, lookupKey_setKey_self]
    have hempty : ms.isEmpty = false := by
      cases ms with
      | nil => exact absurd rfl hms
      | cons a b => rfl
    refine ⟨?_, ?_, ?_⟩
    · simp only [welcome_handler, hempty, Bool.false_eq_true, if_false, hlook]
      exact welcomeLoop_send_count _ _ _ _ _ _ _ _ _
    · simp only [welcome_handler, hempty, Bool.false_eq_true, if_false, hlook]
      exact welcomeLoop_no_delete _ _ _ _ _ _ _ _
    · simp only [welcome_handler, hempty, Bool.false_eq_true, if_false, hlook]
      rw [welcomeLoop_final_doc _ _ _ _ _ f ids hf ms 0 _ hms]
      simp [setwelcome_apply, setKey_setKey, lookupKey_setKey_self]
  · intro doc cid cfg m f p q hlook hlast hp hf
    simp only [welcome_handler, List.isEmpty_cons, Bool.false_eq_true, if_false, hlook,
      welcomeLoop, hlast, hf, hp, ne_eq, not_false_eq_true, if_true]
    rfl
  · intro doc cid ms f hnd
    unfold welcome_handler
    by_cases hempty : ms.isEmpty
    · simp [hempty]
    · simp only [hempty, Bool.false_eq_true, if_false]
      have : lookupKey (toString cid) (clearwelcome_cmd true doc (toString cid)).1.welcomes =
          none := by
        unfold clearwelcome_cmd
        cases hl : lookupKey (toString cid) doc.welcomes with
        | none => simpa using hl
        | some cfg =>
          simpa using lookupKey_eraseKey_self (toString cid) doc.welcomes hnd
      rw [this]
  · intro doc cid m f hf
    simp only [welcome_handler, List.isEmpty_cons, Bool.false_eq_true, if_false]
    cases hl : lookupKey (toString cid) doc.welcomes with
    | none => rfl
    | some cfg =>
      simp [welcomeLoop, hf]

/-- Witness for C2 at concrete inputs: configure chat 1 with template
"hi", let user 5 join with the send succeeding as message 10; exactly one
send, no delete, and the pointer becomes 10.  Then with that pointer
stored, a second join by user 6 (sent as message 11) deletes message 10
first and repoints to 11. -/
theorem C2_welcome_lifecycle_witness :
    (((welcome_handler (setwelcome_apply ⟨[], []⟩ (toString (1 : Int)) ("hi") none) 1
          [⟨5, none, some ("Five")⟩] (fun _ => some 10)).2.filter isSendEffect).length = 1 ∧
      (welcome_handler (setwelcome_apply ⟨[], []⟩ (toString (1 : Int)) ("hi") none) 1
          [⟨5, none, some ("Five")⟩] (fun _ => some 10)).2.filter isDeleteEffect = [] ∧
      lookupKey (toString (1 : Int))
          (welcome_handler (setwelcome_apply ⟨[], []⟩ (toString (1 : Int)) ("hi") none) 1
            [⟨5, none, some ("Five")⟩] (fun _ => some 10)).1.welcomes =
        some ⟨"hi", none, some 10⟩) ∧
    welcome_handler ⟨[(toString (1 : Int), ⟨"hi", none, some 10⟩)], []⟩ 1
        [⟨6, none, some ("Six")⟩] (fun _ => some 11) =
      ({ welcomes := setKey (toString (1 : Int)) ⟨"hi", none, some 11⟩
           [(toString (1 : Int), ⟨"hi", none, some 10⟩)], warns := [] },
       [.deleteMessage 1 10,
        .sendMessage 1 (renderWelcome ("hi") none ⟨6, none, some ("Six")⟩).1
          (renderWelcome ("hi") none ⟨6, none, some ("Six")⟩).2]) :=
  ⟨C2_welcome_lifecycle.1 ⟨[], []⟩ 1 ("hi") none [⟨5, none, some ("Five")⟩]
      (fun _ => some 10) (fun _ => 10) (by decide) (fun j => rfl),
   C2_welcome_lifecycle.2.1 ⟨[(toString (1 : Int), ⟨"hi", none, some 10⟩)], []⟩ 1
      ⟨"hi", none, some 10⟩ ⟨6, none, some ("Six")⟩ (fun _ => some 11) 10 11
      (by simp [lookupKey]) rfl (by decide) rfl⟩

/-! ## Clearwelcome idempotence: claim C8 -/

/-- C8: with an admin issuer, running `/clearwelcome` twice in a row
leaves the store exactly as after the first run — the second invocation
removes nothing, never errors (it is a total function returning a reply),
and replies with the no-welcome-configured notice. -/
theorem C8_clearwelcome_idempotent (doc : Document) (chatKey : String)
    (h : (keysOf doc.welcomes).Nodup) :
    (clearwelcome_cmd true (clearwelcome_cmd true doc chatKey).1 chatKey).1 =
        (clearwelcome_cmd true doc chatKey).1 ∧
      (clearwelcome_cmd true (clearwelcome_cmd true doc chatKey).1 chatKey).2 =
        "No welcome configured." := by
  unfold clearwelcome_cmd
  cases hl : lookupKey chatKey doc.welcomes with
  | none => simp [hl]
  | some cfg =>
    simp only [Bool.not_true, Bool.false_eq_true, if_false, hl]
    have : lookupKey chatKey (eraseKey chatKey doc.welcomes) = none :=
      lookupKey_eraseKey_self chatKey doc.welcomes h
    simp [this]

/-- Witness for C8 at a concrete store with a configured welcome. -/
theorem C8_clearwelcome_idempotent_witness :
    (clearwelcome_cmd true
        (clearwelcome_cmd true ⟨[("1", ⟨"hello", none, none⟩)], []⟩ ("1")).1 ("1")).1 =
      (clearwelcome_cmd true ⟨[("1", ⟨"hello", none, none⟩)], []⟩ ("1")).1 :=
  (C8_clearwelcome_idempotent ⟨[("1", ⟨"hello", none, none⟩)], []⟩ ("1") (by decide)).1

/-! ## Ban and mute duration handling: claim C4 -/

/-- C4 counterexample: `"0"` is accepted by `parse_duration` (it returns
the zero span), yet `/ban 5 0` issues a permanent ban with no expiry and
no error — `if dur:` is false for a zero `timedelta` — contradicting the
claim that any accepted second argument yields an expiry of now plus the
parsed duration. -/
theorem C4_ban_duration_counterexample :
    parse_duration (some ("0")) = some 0 ∧
      ban_cmd (some ⟨"creator", false, false⟩) ⟨fun _ => true, ""⟩ 1 none ["5", "0"] 100 =
        ([.banChatMember 1 5 none], ["Banned 5."]) := by
  constructor <;> decide

/-- C4 (amended): for a `/ban` with a resolved target and a second
argument, a parse-accepted NONZERO duration yields a ban with expiry now
plus that duration; a rejected or zero-parsing second argument silently
yields a permanent ban (no expiry, and on platform success the normal
success reply, no error).  For `/mute` with a resolved target the
duration is mandatory: when `parse_duration` rejects it the command
replies with an explicit error and makes no platform call. -/
theorem C4_ban_silent_permanent_mute_strict :
    (∀ (fetch : Option MemberRec) (p : Platform) (cid : Int) (replyTo : Option Int)
       (a0 d : String) (rest : List String) (now : Nat) (tgt : Int) (dur : Nat),
      check_issuer_permission fetch ("ban") = .allow →
      resolveTarget replyTo (a0 :: d :: rest) ("Usage: /ban <user_id or reply> [duration]") =
        .ok tgt →
      parse_duration (some d) = some dur → dur ≠ 0 →
      (ban_cmd fetch p cid replyTo (a0 :: d :: rest) now).1 =
        [.banChatMember cid tgt (some (now + dur))]) ∧
    (∀ (fetch : Option MemberRec) (p : Platform) (cid : Int) (replyTo : Option Int)
       (a0 d : String) (rest : List String) (now : Nat) (tgt : Int),
      check_issuer_permission fetch ("ban") = .allow →
      resolveTarget replyTo (a0 :: d :: rest) ("Usage: /ban <user_id or reply> [duration]") =
        .ok tgt →
      (parse_duration (some d) = none ∨ parse_duration (some d) = some 0) →
      (ban_cmd fetch p cid replyTo (a0 :: d :: rest) now).1 =
          [.banChatMember cid tgt none] ∧
        (p.ok (.banChatMember cid tgt none) = true →
          (ban_cmd fetch p cid replyTo (a0 :: d :: rest) now).2 =
            ["Banned " ++ toString tgt ++ "."])) ∧
    (∀ (fetch : Option MemberRec) (pp : PermPlatform) (p : Platform) (cid : Int)
       (replyTo : Option Int) (args : List String) (now : Nat) (tgt : Int)
       (durArg : Option String),
      check_issuer_permission fetch ("mute") = .allow →
      muteResolve replyTo args = .ok (tgt, durArg) →
      parse_duration durArg = none →
      mute_cmd fetch pp p cid replyTo args now =
        .ok ([], ["Invalid duration. Examples: 10m, 2h"])) := by
  refine ⟨?_, ?_, ?_⟩
  · intro fetch p cid replyTo a0 d rest now tgt dur hA hres hdur hnz
    simp only [ban_cmd, hA, hres, hdur, hnz, ne_eq, not_false_eq_true, if_true]
    by_cases hok : p.ok (.banChatMember cid tgt (some (now + dur))) <;> simp [hok]
  · intro fetch p cid replyTo a0 d rest now tgt hA hres hcase
    have huntil :
        (match parse_duration (some d) with
          | some dur => if dur ≠ 0 then some (now + dur) else none
          | none => none) = (none : Option Nat) := by
      rcases hcase with h | h <;> simp [h]
    constructor
    · simp only [ban_cmd, hA, hres, huntil]
      by_cases hok : p.ok (.banChatMember cid tgt none) <;> simp [hok]
    · intro hok
      simp only [ban_cmd, hA, hres, huntil, hok, if_true]
  · intro fetch pp p cid replyTo args now tgt durArg hA hres hdur
    simp only [mute_cmd, hA, hres, hdur]

/-- Witness for C4's amended theorem at concrete inputs: `/ban 5 10m`
expires 600 seconds from now, `/ban 5 0` is permanent with the normal
reply, and `/mute 5 junk` aborts with the explicit duration error. -/
theorem C4_ban_silent_permanent_mute_strict_witness :
    (ban_cmd (some ⟨"creator", false, false⟩) ⟨fun _ => true, ""⟩ 1 none ["5", "10m"] 100).1 =
        [.banChatMember 1 5 (some 700)] ∧
      (ban_cmd (some ⟨"creator", false, false⟩) ⟨fun _ => true, ""⟩ 1 none ["5", "0"] 100).2 =
        ["Banned " ++ toString (5 : Int) ++ "."] ∧
      mute_cmd (some ⟨"creator", false, false⟩) stdPermPlatform ⟨fun _ => true, ""⟩ 1 none
          ["5", "junk"] 100 =
        .ok ([], ["Invalid duration. Examples: 10m, 2h"]) :=
  ⟨C4_ban_silent_permanent_mute_strict.1 (some ⟨"creator", false, false⟩) ⟨fun _ => true, ""⟩
      1 none ("5") ("10m") [] 100 5 600 rfl rfl (by decide) (by decide),
   (C4_ban_silent_permanent_mute_strict.2.1 (some ⟨"creator", false, false⟩)
      ⟨fun _ => true, ""⟩ 1 none ("5") ("0") [] 100 5 rfl rfl (Or.inr (by decide))).2 rfl,
   C4_ban_silent_permanent_mute_strict.2.2 (some ⟨"creator", false, false⟩) stdPermPlatform
      ⟨fun _ => true, ""⟩ 1 none ["5", "junk"] 100 5 (some ("junk")) rfl rfl (by decide)⟩

/-! ## Target resolution: claim C6 -/

/-- C6: for each moderation command — kick, ban, unban, mute, unmute,
warn — a reply makes the replied-to author the target, otherwise the
first argument must parse as an integer id, otherwise the command replies
with a usage error and attempts no platform call; `/mute` additionally
rejects a single bare argument without reply with a distinct ambiguity
error before any platform call. -/
theorem C6_target_resolution :
    (∀ (fetch : Option MemberRec) (p : Platform) (cid u : Int) (args : List String),
      check_issuer_permission fetch ("kick") = .allow →
      (kick_cmd fetch p cid (some u) args).1.head? = some (.banChatMember cid u none)) ∧
    (∀ (fetch : Option MemberRec) (p : Platform) (cid : Int) (a : String)
       (rest : List String) (n : Int),
      check_issuer_permission fetch ("kick") = .allow → pyInt a = some n →
      (kick_cmd fetch p cid none (a :: rest)).1.head? = some (.banChatMember cid n none)) ∧
    (∀ (fetch : Option MemberRec) (p : Platform) (cid : Int),
      check_issuer_permission fetch ("kick") = .allow →
      kick_cmd fetch p cid none [] = ([], ["Usage: /kick <user_id or reply>"])) ∧
    (∀ (fetch : Option MemberRec) (p : Platform) (cid : Int) (a : String)
       (rest : List String),
      check_issuer_permission fetch ("kick") = .allow → pyInt a = none →
      kick_cmd fetch p cid none (a :: rest) = ([], ["Provide numeric user id or reply."])) ∧
    (∀ (fetch : Option MemberRec) (p : Platform) (cid u : Int) (args : List String)
       (now : Nat),
      check_issuer_permission fetch ("ban") = .allow →
      ∃ ud, (ban_cmd fetch p cid (some u) args now).1 = [.banChatMember cid u ud]) ∧
    (∀ (fetch : Option MemberRec) (p : Platform) (cid : Int) (a : String)
       (rest : List String) (n : Int) (now : Nat),
      check_issuer_permission fetch ("ban") = .allow → pyInt a = some n →
      ∃ ud, (ban_cmd fetch p cid none (a :: rest) now).1 = [.banChatMember cid n ud]) ∧
    (∀ (fetch : Option MemberRec) (p : Platform) (cid : Int) (now : Nat),
      check_issuer_permission fetch ("ban") = .allow →
      ban_cmd fetch p cid none [] now = ([], ["Usage: /ban <user_id or reply> [duration]"])) ∧
    (∀ (fetch : Option MemberRec) (p : Platform) (cid : Int) (a : String)
       (rest : List String) (now : Nat),
      check_issuer_permission fetch ("ban") = .allow → pyInt a = none →
      ban_cmd fetch p cid none (a :: rest) now =
        ([], ["Provide numeric user id or reply."])) ∧
    (∀ (fetch : Option MemberRec) (p : Platform) (cid u : Int) (args : List String),
      check_issuer_permission fetch ("ban") = .allow →
      (unban_cmd fetch p cid (some u) args).1 = [.unbanChatMember cid u]) ∧
    (∀ (fetch : Option MemberRec) (p : Platform) (cid : Int) (a : String)
       (rest : List String) (n : Int),
      check_issuer_permission fetch ("ban") = .allow → pyInt a = some n →
      (unban_cmd fetch p cid none (a :: rest)).1 = [.unbanChatMember cid n]) ∧
    (∀ (fetch : Option MemberRec) (p : Platform) (cid : Int),
      check_issuer_permission fetch ("ban") = .allow →
      unban_cmd fetch p cid none [] = ([], ["Usage: /unban <user_id or reply>"])) ∧
    (∀ (fetch : Option MemberRec) (p : Platform) (cid : Int) (a : String)
       (rest : List String),
      check_issuer_permission fetch ("ban") = .allow → pyInt a = none →
      unban_cmd fetch p cid none (a :: rest) = ([], ["Provide numeric user id or reply."])) ∧
    (∀ (fetch : Option MemberRec) (pp : PermPlatform) (p : Platform) (cid u : Int)
       (args : List String) (perms : ChatPermissions),
      check_issuer_permission fetch ("mute") = .allow →
      make_chat_permissions_from_dict pp DEFAULT_UNMUTE_PERMS = .ok perms →
      (unmute_cmd fetch pp p cid (some u) args).1 = [.restrictChatMember cid u perms none]) ∧
    (∀ (fetch : Option MemberRec) (pp : PermPlatform) (p : Platform) (cid : Int)
       (a : String) (rest : List String) (n : Int) (perms : ChatPermissions),
      check_issuer_permission fetch ("mute") = .allow → pyInt a = some n →
      make_chat_permissions_from_dict pp DEFAULT_UNMUTE_PERMS = .ok perms →
      (unmute_cmd fetch pp p cid none (a :: rest)).1 =
        [.restrictChatMember cid n perms none]) ∧
    (∀ (fetch : Option MemberRec) (pp : PermPlatform) (p : Platform) (cid : Int),
      check_issuer_permission fetch ("mute") = .allow →
      unmute_cmd fetch pp p cid none [] = ([], ["Usage: /unmute <user_id or reply>"])) ∧
    (∀ (fetch : Option MemberRec) (pp : PermPlatform) (p : Platform) (cid : Int)
       (a : String) (rest : List String),
      check_issuer_permission fetch ("mute") = .allow → pyInt a = none →
      unmute_cmd fetch pp p cid none (a :: rest) =
        ([], ["Provide numeric user id or reply."])) ∧
    (∀ (fetch : Option MemberRec) (doc : Document) (cid u : Int) (args : List String),
      check_issuer_permission fetch ("kick") = .allow →
      warn_cmd fetch doc cid (some u) args =
        ((warn_apply doc (toString cid) (toString u)).1,
         ["Warned " ++ toString u ++ " (" ++
           toString (warn_apply doc (toString cid) (toString u)).2 ++ " total)."])) ∧
    (∀ (fetch : Option MemberRec) (doc : Document) (cid : Int) (a : String)
       (rest : List String) (n : Int),
      check_issuer_permission fetch ("kick") = .allow → pyInt a = some n →
      warn_cmd fetch doc cid none (a :: rest) =
        ((warn_apply doc (toString cid) (toString n)).1,
         ["Warned " ++ toString n ++ " (" ++
           toString (warn_apply doc (toString cid) (toString n)).2 ++ " total)."])) ∧
    (∀ (fetch : Option MemberRec) (doc : Document) (cid : Int),
      check_issuer_permission fetch ("kick") = .allow →
      warn_cmd fetch doc cid none [] = (doc, ["Usage: /warn <user_id or reply>"])) ∧
    (∀ (fetch : Option MemberRec) (doc : Document) (cid : Int) (a : String)
       (rest : List String),
      check_issuer_permission fetch ("kick") = .allow → pyInt a = none →
      warn_cmd fetch doc cid none (a :: rest) =
        (doc, ["Provide numeric user id or reply."])) ∧
    (∀ (fetch : Option MemberRec) (pp : PermPlatform) (p : Platform) (cid u : Int)
       (d : String) (rest : List String) (now : Nat) (dur : Nat) (perms : ChatPermissions),
      check_issuer_permission fetch ("mute") = .allow →
      parse_duration (some d) = some dur → dur ≠ 0 →
      build_full_mute_permissions pp = .ok perms →
      ∃ replies, mute_cmd fetch pp p cid (some u) (d :: rest) now =
        .ok ([.restrictChatMember cid u perms (some (now + dur))], replies)) ∧
    (∀ (fetch : Option MemberRec) (pp : PermPlatform) (p : Platform) (cid : Int)
       (a b : String) (rest : List String) (n : Int) (now : Nat) (dur : Nat)
       (perms : ChatPermissions),
      check_issuer_permission fetch ("mute") = .allow → pyInt a = some n →
      parse_duration (some b) = some dur → dur ≠ 0 →
      build_full_mute_permissions pp = .ok perms →
      ∃ replies, mute_cmd fetch pp p cid none (a :: b :: rest) now =
        .ok ([.restrictChatMember cid n perms (some (now + dur))], replies)) ∧
    (∀ (fetch : Option MemberRec) (pp : PermPlatform) (p : Platform) (cid : Int)
       (a : String) (now : Nat),
      check_issuer_permission fetch ("mute") = .allow →
      mute_cmd fetch pp p cid none [a] now =
        .ok ([], ["Reply to a user's message and use /mute <duration>, or use /mute <user_id> <duration>."])) ∧
    (∀ (fetch : Option MemberRec) (pp : PermPlatform) (p : Platform) (cid : Int)
       (now : Nat),
      check_issuer_permission fetch ("mute") = .allow →
      mute_cmd fetch pp p cid none [] now =
        .ok ([], ["Usage: /mute <duration> (reply) OR /mute <user_id> <duration>\nExamples: 10m, 2h"])) ∧
    (∀ (fetch : Option MemberRec) (pp : PermPlatform) (p : Platform) (cid : Int)
       (a b : String) (rest : List String) (now : Nat),
      check_issuer_permission fetch ("mute") = .allow → pyInt a = none →
      mute_cmd fetch pp p cid none (a :: b :: rest) now =
        .ok ([], ["Provide a numeric user id or reply."])) ∧
    ("Reply to a user's message and use /mute <duration>, or use /mute <user_id> <duration>." ≠
      "Usage: /mute <duration> (reply) OR /mute <user_id> <duration>\nExamples: 10m, 2h") := by
  refine ⟨?_, ?_, ?_, ?_, ?_, ?_, ?_, ?_, ?_, ?_, ?_, ?_, ?_, ?_, ?_, ?_, ?_, ?_, ?_, ?_,
    ?_, ?_, ?_, ?_, ?_, by decide⟩
  · intro fetch p cid u args hA
    simp only [kick_cmd, hA, resolveTarget]
    by_cases h1 : p.ok (.banChatMember cid u none) <;>
      by_cases h2 : p.ok (.unbanChatMember cid u) <;> simp [h1, h2]
  · intro fetch p cid a rest n hA hn
    simp only [kick_cmd, hA, resolveTarget, hn]
    by_cases h1 : p.ok (.banChatMember cid n none) <;>
      by_cases h2 : p.ok (.unbanChatMember cid n) <;> simp [h1, h2]
  · intro fetch p cid hA
    simp [kick_cmd, hA, resolveTarget]
  · intro fetch p cid a rest hA hn
    simp [kick_cmd, hA, resolveTarget, hn]
  · intro fetch p cid u args now hA
    simp only [ban_cmd, hA, resolveTarget]
    exact ⟨_, by split <;> rfl⟩
  · intro fetch p cid a rest n now hA hn
    simp only [ban_cmd, hA, resolveTarget, hn]
    exact ⟨_, by split <;> rfl⟩
  · intro fetch p cid now hA
    simp [ban_cmd, hA, resolveTarget]
  · intro fetch p cid a rest now hA hn
    simp [ban_cmd, hA, resolveTarget, hn]
  · intro fetch p cid u args hA
    simp only [unban_cmd, hA, resolveTarget]
    by_cases h1 : p.ok (.unbanChatMember cid u) <;> simp [h1]
  · intro fetch p cid a rest n hA hn
    simp only [unban_cmd, hA, resolveTarget, hn]
    by_cases h1 : p.ok (.unbanChatMember cid n) <;> simp [h1]
  · intro fetch p cid hA
    simp [unban_cmd, hA, resolveTarget]
  · intro fetch p cid a rest hA hn
    simp [unban_cmd, hA, resolveTarget, hn]
  · intro fetch pp p cid u args perms hA hmk
    simp only [unmute_cmd, hA, resolveTarget, hmk]
    by_cases h1 : p.ok (.restrictChatMember cid u perms none) <;> simp [h1]
  · intro fetch pp p cid a rest n perms hA hn hmk
    simp only [unmute_cmd, hA, resolveTarget, hn, hmk]
    by_cases h1 : p.ok (.restrictChatMember cid n perms none) <;> simp [h1]
  · intro fetch pp p cid hA
    simp [unmute_cmd, hA, resolveTarget]
  · intro fetch pp p cid a rest hA hn
    simp [unmute_cmd, hA, resolveTarget, hn]
  · intro fetch doc cid u args hA
    simp [warn_cmd, hA, resolveTarget]
  · intro fetch doc cid a rest n hA hn
    simp [warn_cmd, hA, resolveTarget, hn]
  · intro fetch doc cid hA
    simp [warn_cmd, hA, resolveTarget]
  · intro fetch doc cid a rest hA hn
    simp [warn_cmd, hA, resolveTarget, hn]
  · intro fetch pp p cid u d rest now dur perms hA hdur hnz hmk
    simp only [mute_cmd, hA, muteResolve, List.head?_cons, hdur, hnz, hmk, ne_eq,
      not_false_eq_true, if_true]
    by_cases h1 : p.ok (.restrictChatMember cid u perms (some (now + dur))) <;>
      simp [h1, hnz]
  · intro fetch pp p cid a b rest n now dur perms hA hn hdur hnz hmk
    simp only [mute_cmd, hA, muteResolve, hn, hdur, hnz, hmk, ne_eq, not_false_eq_true,
      if_true]
    by_cases h1 : p.ok (.restrictChatMember cid n perms (some (now + dur))) <;>
      simp [h1, hnz]
  · intro fetch pp p cid a now hA
    simp [mute_cmd, hA, muteResolve]
  · intro fetch pp p cid now hA
    simp [mute_cmd, hA, muteResolve]
  · intro fetch pp p cid a b rest now hA hn
    simp [mute_cmd, hA, muteResolve, hn]

/-- Witness for C6 at concrete inputs: a reply targets the replied-to
author for kick, a bare `/mute 10m` without reply draws the ambiguity
error, and `/warn` without reply or arguments draws the usage error. -/
theorem C6_target_resolution_witness :
    (kick_cmd (some ⟨"creator", false, false⟩) ⟨fun _ => true, ""⟩ 1 (some 9) []).1.head? =
        some (.banChatMember 1 9 none) ∧
      mute_cmd (some ⟨"creator", false, false⟩) stdPermPlatform ⟨fun _ => true, ""⟩ 1 none
          ["10m"] 0 =
        .ok ([], ["Reply to a user's message and use /mute <duration>, or use /mute <user_id> <duration>."]) ∧
      warn_cmd (some ⟨"creator", false, false⟩) ⟨[], []⟩ 1 none [] =
        (⟨[], []⟩, ["Usage: /warn <user_id or reply>"]) :=
  ⟨C6_target_resolution.1 (some ⟨"creator", false, false⟩) ⟨fun _ => true, ""⟩ 1 9 [] rfl,
   C6_target_resolution.2.2.2.2.2.2.2.2.2.2.2.2.2.2.2.2.2.2.2.2.2.2.1
      (some ⟨"creator", false, false⟩) stdPermPlatform ⟨fun _ => true, ""⟩ 1 ("10m") 0 rfl,
   C6_target_resolution.2.2.2.2.2.2.2.2.2.2.2.2.2.2.2.2.2.2.1
      (some ⟨"creator", false, false⟩) ⟨[], []⟩ 1 rfl⟩

/-! ## Search blacklist: claim C10 -/

/-- C10: a `/search` issuer on the in-memory blacklist is dropped before
anything happens: no reply of any kind and no lookup call, whatever the
arguments, the IP-filter predicate and the lookup collaborator. -/
theorem C10_search_blacklisted_silent_drop (blacklist : List Int) (userId : Int)
    (args : List String) (isIpQ : String → Bool) (searchAnswer : String → String)
    (h : userId ∈ blacklist) :
    search_cmd blacklist userId args isIpQ searchAnswer = [] := by
  simp [search_cmd, h]

/-- Witness for C10: blacklisted user 7 searching gets nothing at all. -/
theorem C10_search_blacklisted_silent_drop_witness :
    search_cmd [7] 7 ["query"] (fun _ => false) (fun _ => "answer") = [] :=
  C10_search_blacklisted_silent_drop [7] 7 ["query"] (fun _ => false) (fun _ => "answer")
    (by decide)

/-! ## Store round trip: claim C9

Whitespace, token, string-escape, number and object lemmas leading to the
save/load round trip. -/

theorem skipWs_cons_space (l : List Char) : skipWs (' ' :: l) = skipWs l := by
  simp [skipWs, List.dropWhile, isJWs]

theorem skipWs_cons_nl (l : List Char) : skipWs ('\n' :: l) = skipWs l := by
  simp [skipWs, List.dropWhile]
  rfl

theorem skipWs_cons_of_not (c : Char) (l : List Char) (h : isJWs c = false) :
    skipWs (c :: l) = c :: l := by
  simp [skipWs, List.dropWhile, h]

theorem skipWs_replicate_space (n : Nat) (l : List Char) :
    skipWs (List.replicate n ' ' ++ l) = skipWs l := by
  induction n with
  | zero => simp
  | succ n ih => simpa [List.replicate_succ, skipWs_cons_space] using ih

theorem skipWs_indent (k : Nat) (l : List Char) :
    skipWs (indentChars k ++ l) = skipWs l :=
  skipWs_replicate_space (2 * k) l

theorem skipWs_ppJStr (s : String) (l : List Char) :
    skipWs (ppJStr s ++ l) = ppJStr s ++ l := by
  simp [ppJStr, skipWs, List.dropWhile]
  rfl

theorem stripPre_append (tok rest : List Char) : stripPre tok (tok ++ rest) = some rest := by
  induction tok with
  | nil => rfl
  | cons c cs ih => simp [stripPre, ih]

theorem expectChar_cons (c : Char) (l : List Char) : expectChar c (c :: l) = some l := by
  simp [expectChar]

theorem hexVal_digitChar (m : Nat) (h : m < 16) : hexVal (Nat.digitChar m) = some m := by
  interval_cases m <;> decide

theorem parseJStrAux_esc (c : Char) (tail : List Char) :
    parseJStrAux (escChar c ++ tail) =
      (parseJStrAux tail).map (fun p => (c :: p.1, p.2)) := by
  unfold escChar
  by_cases h1 : c = '\"'
  · subst h1
    rw [parseJStrAux.eq_def]
    simp [escDecode]
    cases parseJStrAux tail <;> simp
  · rw [if_neg h1]
    by_cases h2 : c = '\\'
    · subst h2
      rw [parseJStrAux.eq_def]
      simp [escDecode]
      cases parseJStrAux tail <;> simp
    · rw [if_neg h2]
      by_cases h3 : c = Char.ofNat 8
      · subst h3
        rw [parseJStrAux.eq_def]
        simp [escDecode]
        cases parseJStrAux tail <;> simp
      · rw [if_neg h3]
        by_cases h4 : c = Char.ofNat 9
        · subst h4
          rw [parseJStrAux.eq_def]
          simp [escDecode]
          cases parseJStrAux tail <;> simp
        · rw [if_neg h4]
          by_cases h5 : c = Char.ofNat 10
          · subst h5
            rw [parseJStrAux.eq_def]
            simp [escDecode]
            cases parseJStrAux tail <;> simp
          · rw [if_neg h5]
            by_cases h6 : c = Char.ofNat 12
            · subst h6
              rw [parseJStrAux.eq_def]
              simp [escDecode]
              cases parseJStrAux tail <;> simp
            · rw [if_neg h6]
              by_cases h7 : c = Char.ofNat 13
              · subst h7
                rw [parseJStrAux.eq_def]
                simp [escDecode]
                cases parseJStrAux tail <;> simp
              · rw [if_neg h7]
                by_cases h8 : c.toNat < 32
                · rw [if_pos h8]
                  have hd1 : hexVal (Nat.digitChar (c.toNat / 16)) = some (c.toNat / 16) :=
                    hexVal_digitChar _ (by omega)
                  have hd2 : hexVal (Nat.digitChar (c.toNat % 16)) = some (c.toNat % 16) :=
                    hexVal_digitChar _ (by omega)
                  rw [parseJStrAux.eq_def]
                  simp only [List.cons_append, List.nil_append]
                  simp [hd1, hd2]
                  have harith : (c.toNat / 16 * 16 + c.toNat % 16) = c.toNat := by omega
                  have h0 : hexVal '0' = some 0 := by decide
                  cases parseJStrAux tail <;>
                    simp_all [harith, h0, Char.ofNat_toNat]
                · rw [if_neg h8]
                  rw [parseJStrAux.eq_def]
                  simp only [List.cons_append, List.nil_append]
                  simp [h1, h2]
                  cases parseJStrAux tail <;> simp

theorem parseJStrAux_escList (s : List Char) (tail : List Char) :
    parseJStrAux (escList s ++ ('\"' :: tail)) = some (s, tail) := by
  induction s with
  | nil =>
    rw [escList, List.nil_append, parseJStrAux.eq_def]
    simp
  | cons c cs ih =>
    rw [escList, List.append_assoc, parseJStrAux_esc, ih]
    rfl

theorem parseJStr_pp (s : String) (rest : List Char) :
    parseJStr (ppJStr s ++ rest) = some (s.data, rest) := by
  have : ppJStr s ++ rest = '\"' :: (escList s.data ++ ('\"' :: rest)) := by
    simp [ppJStr]
  rw [this, parseJStr]
  simp [parseJStrAux_escList]

theorem digitChar_isDigit (n : Nat) (h : n < 10) : (Nat.digitChar n).isDigit = true := by
  interval_cases n <;> decide

theorem digitChar_val (n : Nat) (h : n < 10) : (Nat.digitChar n).toNat - 48 = n := by
  interval_cases n <;> decide

theorem ppNat_head (n : Nat) :
    ∃ c cs, ppNat n = c :: cs ∧ c.isDigit = true := by
  induction n using Nat.strong_induction_on with
  | _ n ih =>
    by_cases h : n < 10
    · exact ⟨Nat.digitChar n, [], by rw [ppNat, if_pos h], digitChar_isDigit n h⟩
    · obtain ⟨c, cs, hc, hd⟩ := ih (n / 10) (Nat.div_lt_self (by omega) (by omega))
      exact ⟨c, cs ++ [Nat.digitChar (n % 10)], by rw [ppNat, if_neg h, hc]; simp, hd⟩

theorem parseNatAux_eq_run (n : Nat) (rest : List Char) (acc : Nat) :
    parseNatAux (ppNat n ++ rest) acc =
      parseNatAux rest (acc * 10 ^ (ppNat n).length + n) := by
  induction n using Nat.strong_induction_on generalizing rest acc with
  | _ n ih =>
    by_cases h : n < 10
    · rw [ppNat, if_pos h]
      simp [parseNatAux, digitChar_isDigit n h, digitChar_val n h]
    · rw [ppNat, if_neg h]
      rw [List.append_assoc, List.singleton_append,
        ih (n / 10) (Nat.div_lt_self (by omega) (by omega))]
      have hd : (Nat.digitChar (n % 10)).isDigit = true := digitChar_isDigit _ (by omega)
      have hv : (Nat.digitChar (n % 10)).toNat - 48 = n % 10 := digitChar_val _ (by omega)
      simp only [parseNatAux, hd, if_pos, hv, List.length_append, List.length_cons,
        List.length_nil]
      congr 1
      have hp : 10 ^ ((ppNat (n / 10)).length + (0 + 1)) =
          10 ^ (ppNat (n / 10)).length * 10 := by ring
      have hmod := Nat.div_add_mod n 10
      rw [hp]
      ring_nf
      omega

theorem parseNatAux_stop (acc : Nat) (rest : List Char) (h : noDigitHead rest = true) :
    parseNatAux rest acc = (acc, rest) := by
  cases rest with
  | nil => rfl
  | cons c cs =>
    simp only [noDigitHead, Bool.not_eq_true'] at h
    simp [parseNatAux, h]

theorem parseJNat_pp (n : Nat) (rest : List Char) (h : noDigitHead rest = true) :
    parseJNat (ppNat n ++ rest) = some (n, rest) := by
  obtain ⟨c, cs, hc, hd⟩ := ppNat_head n
  have h1 : parseNatAux (ppNat n ++ rest) 0 = (n, rest) := by
    rw [parseNatAux_eq_run, parseNatAux_stop _ _ h]
    simp
  rw [hc] at h1 ⊢
  simp only [List.cons_append, parseJNat, hd, if_pos]
  simp only [parseNatAux, hd, if_pos] at h1
  simpa using h1

theorem String.mk_data (s : String) : String.mk s.data = s := by cases s; rfl

theorem isJWs_false_of_digit (c : Char) (h : c.isDigit = true) : isJWs c = false := by
  simp only [isJWs, decide_eq_false_iff_not]
  intro hor
  rcases hor with rfl | rfl | rfl | rfl <;> exact absurd h (by decide)

theorem digit_ne_n (c : Char) (h : c.isDigit = true) : c ≠ 'n' := by
  intro he
  subst he
  exact absurd h (by decide)

theorem stripPre_null_of_ne (c : Char) (cs : List Char) (h : c ≠ 'n') :
    stripPre nullChars (c :: cs) = none := by
  simp [nullChars, stripPre, h]

theorem parseOptNatVal_pp (v : Option Nat) (rest : List Char)
    (h : noDigitHead rest = true) :
    parseOptNatVal (' ' :: (ppOptNat v ++ rest)) = some (v, rest) := by
  cases v with
  | none =>
    simp only [parseOptNatVal, ppOptNat, skipWs_cons_space]
    rw [show nullChars ++ rest = 'n' :: ('u' :: 'l' :: 'l' :: rest) from rfl,
      skipWs_cons_of_not 'n' _ (by decide),
      show ('n' : Char) :: ('u' :: 'l' :: 'l' :: rest) = nullChars ++ rest from rfl,
      stripPre_append]
  | some n =>
    obtain ⟨c, cs, hc, hd⟩ := ppNat_head n
    simp only [parseOptNatVal, ppOptNat, skipWs_cons_space, hc, List.cons_append]
    rw [skipWs_cons_of_not c _ (isJWs_false_of_digit c hd)]
    rw [stripPre_null_of_ne c _ (digit_ne_n c hd)]
    rw [← List.cons_append, ← hc, parseJNat_pp n rest h]
    rfl

theorem skipWs_cons_lbrace (l : List Char) : skipWs ('\x7b' :: l) = '\x7b' :: l :=
  skipWs_cons_of_not _ _ (by decide)

theorem skipWs_cons_rbrace (l : List Char) : skipWs ('\x7d' :: l) = '\x7d' :: l :=
  skipWs_cons_of_not _ _ (by decide)

theorem skipWs_cons_colon (l : List Char) : skipWs (':' :: l) = ':' :: l :=
  skipWs_cons_of_not _ _ (by decide)

theorem skipWs_cons_comma (l : List Char) : skipWs (',' :: l) = ',' :: l :=
  skipWs_cons_of_not _ _ (by decide)

theorem noDigitHead_nl (l : List Char) : noDigitHead ('\n' :: l) = true := rfl

theorem parseOptStrVal_pp (v : Option String) (rest : List Char) :
    parseOptStrVal (' ' :: (ppOptStr v ++ rest)) = some (v, rest) := by
  cases v with
  | none =>
    simp only [parseOptStrVal, ppOptStr, skipWs_cons_space]
    rw [show nullChars ++ rest = 'n' :: ('u' :: 'l' :: 'l' :: rest) from rfl,
      skipWs_cons_of_not 'n' _ (by decide),
      show ('n' : Char) :: ('u' :: 'l' :: 'l' :: rest) = nullChars ++ rest from rfl,
      stripPre_append]
  | some s =>
    simp only [parseOptStrVal, ppOptStr, ppJStr, skipWs_cons_space, List.cons_append]
    rw [skipWs_cons_of_not '\"' _ (by decide)]
    rw [stripPre_null_of_ne '\"' _ (by decide)]
    rw [show ('\"' :: ((escList s.data ++ ['\"']) ++ rest)) = ppJStr s ++ rest by
      simp [ppJStr]]
    rw [parseJStr_pp]
    simp [String.mk_data]

theorem parseCfg_pp (lvl : Nat) (cfg : WelcomeCfg) (rest : List Char) :
    parseCfg (' ' :: (ppCfg lvl cfg ++ rest)) = some (cfg, rest) := by
  simp only [parseCfg, ppCfg, ppObj, ppEntriesSep, ppEntry, List.cons_ne_nil, if_neg,
    List.append_assoc, List.cons_append, List.nil_append, skipWs_cons_space,
    skipWs_cons_nl, skipWs_indent, skipWs_ppJStr, skipWs_cons_lbrace, skipWs_cons_rbrace,
    skipWs_cons_colon, skipWs_cons_comma, expectChar_cons, stripPre_append,
    parseJStr_pp, parseOptStrVal_pp, parseOptNatVal_pp, noDigitHead_nl,
    Option.bind_some, Option.some_bind, bind, Option.bind, pure, reduceCtorEq,
    ite_false, String.mk_data]

theorem parseJNatVal_pp (n : Nat) (rest : List Char) (h : sepHead rest = true) :
    parseJNat (skipWs (' ' :: (ppNat n ++ rest))) = some (n, rest) := by
  obtain ⟨c, cs, hc, hd⟩ := ppNat_head n
  rw [skipWs_cons_space, hc, List.cons_append,
    skipWs_cons_of_not c _ (isJWs_false_of_digit c hd), ← List.cons_append, ← hc]
  apply parseJNat_pp
  cases rest with
  | nil => simp [sepHead] at h
  | cons c2 cs2 =>
    simp only [sepHead, decide_eq_true_eq] at h
    rcases h with rfl | rfl <;> rfl

theorem parseEntriesAux_map {α : Type} (pVal : List Char → Option (α × List Char))
    (ppV : α → List Char) (es : List (String × α))
    (hval : ∀ kv ∈ es, ∀ rest, sepHead rest = true →
      pVal (' ' :: (ppV kv.2 ++ rest)) = some (kv.2, rest)) :
    ∀ (fuel a d : Nat) (rest : List Char), es ≠ [] → es.length ≤ fuel →
    parseEntriesAux pVal fuel
        ('\n' :: (ppEntriesSep a (es.map (fun kv => ppEntry kv.1 (ppV kv.2))) ++
          ('\n' :: (indentChars d ++ ('\x7d' :: rest))))) = some (es, rest) := by
  induction es with
  | nil => intro fuel a d rest hne; exact absurd rfl hne
  | cons kv es ih =>
    intro fuel a d rest hne hfuel
    cases fuel with
    | zero => simp at hfuel
    | succ f =>
      have hv := hval kv (List.mem_cons_self _ _)
      cases es with
      | nil =>
        have hfollow : sepHead ('\n' :: (indentChars d ++ ('\x7d' :: rest))) = true := by
          simp [sepHead]
        simp only [List.map_cons, List.map_nil, ppEntriesSep, ppEntry, parseEntriesAux,
          List.append_assoc, List.cons_append, List.nil_append, skipWs_cons_nl,
          skipWs_indent, skipWs_ppJStr, skipWs_cons_colon, expectChar_cons,
          stripPre_append, parseJStr_pp, Option.bind_some, Option.some_bind, bind,
          Option.bind, pure, hv _ hfollow]
        rw [skipWs_cons_rbrace]
        rfl
      | cons kv2 es2 =>
        have hfollow : sepHead (',' :: ('\n' ::
            (ppEntriesSep a ((kv2 :: es2).map (fun kv => ppEntry kv.1 (ppV kv.2))) ++
              ('\n' :: (indentChars d ++ ('\x7d' :: rest)))))) = true := by
          simp [sepHead]
        have ihr := ih (fun kv2 hm => hval kv2 (List.mem_cons_of_mem _ hm)) f a d rest
          (by simp) (by simpa using hfuel)
        have hvf := hv _ hfollow
        simp only [List.map_cons, ppEntriesSep, ppEntry, List.append_assoc,
          List.cons_append, List.nil_append] at hvf ihr
        simp only [List.map_cons, ppEntriesSep, ppEntry, parseEntriesAux,
          List.append_assoc, List.cons_append, List.nil_append, skipWs_cons_nl,
          skipWs_indent, skipWs_ppJStr, skipWs_cons_colon, expectChar_cons,
          stripPre_append, parseJStr_pp, Option.bind_some, Option.some_bind, bind,
          Option.bind, pure]
        rw [hvf]
        simp only [skipWs_cons_comma]
        rw [ihr]

theorem ppJStr_head (s : String) (l : List Char) :
    ppJStr s ++ l = '\"' :: (escList s.data ++ ('\"' :: l)) := by
  simp [ppJStr]

theorem parseObjWith_map {α : Type} (pVal : List Char → Option (α × List Char))
    (ppV : α → List Char) (es : List (String × α)) (lvl fuel : Nat) (rest : List Char)
    (hval : ∀ kv ∈ es, ∀ r2, sepHead r2 = true →
      pVal (' ' :: (ppV kv.2 ++ r2)) = some (kv.2, r2))
    (hfuel : es.length ≤ fuel) :
    parseObjWith pVal fuel
        (' ' :: (ppObj lvl (es.map (fun kv => ppEntry kv.1 (ppV kv.2))) ++ rest)) =
      some (es, rest) := by
  cases es with
  | nil =>
    simp only [List.map_nil, ppObj, if_pos rfl, List.cons_append, List.nil_append,
      parseObjWith, skipWs_cons_space, skipWs_cons_lbrace, expectChar_cons,
      skipWs_cons_rbrace, Option.bind_some, Option.some_bind, bind, Option.bind, pure]
    rfl
  | cons kv es2 =>
    have hents := parseEntriesAux_map pVal ppV (kv :: es2) hval fuel (lvl + 1) lvl rest
      (by simp) hfuel
    simp only [List.map_cons, ppObj, List.cons_ne_nil, if_neg, List.append_assoc,
      List.cons_append, List.nil_append, reduceCtorEq, ite_false] at hents ⊢
    simp only [parseObjWith, skipWs_cons_space, skipWs_cons_lbrace, expectChar_cons,
      Option.bind_some, Option.some_bind, bind, Option.bind, pure, skipWs_cons_nl]
    have hhead : ∃ t, skipWs (ppEntriesSep (lvl + 1)
        (ppEntry kv.1 (ppV kv.2) :: List.map (fun kv => ppEntry kv.1 (ppV kv.2)) es2) ++
        ('\n' :: (indentChars lvl ++ ('\x7d' :: rest)))) = '\"' :: t := by
      cases es2 with
      | nil =>
        exact ⟨_, by
          simp only [ppEntriesSep, ppEntry, List.append_assoc, List.cons_append,
            List.nil_append, skipWs_indent, ppJStr_head]
          rw [skipWs_cons_of_not '\"' _ (by decide)]⟩
      | cons kv3 es3 =>
        exact ⟨_, by
          simp only [ppEntriesSep, ppEntry, List.append_assoc, List.cons_append,
            List.nil_append, skipWs_indent, ppJStr_head]
          rw [skipWs_cons_of_not '\"' _ (by decide)]⟩
    obtain ⟨t, ht⟩ := hhead
    rw [ht]
    exact hents

theorem setKey_of_not_mem {α : Type} (k : String) (v : α) (acc : List (String × α))
    (h : k ∉ keysOf acc) : setKey k v acc = acc ++ [(k, v)] := by
  induction acc with
  | nil => rfl
  | cons p rest ih =>
    simp only [keysOf, List.map_cons, List.mem_cons] at h
    push_neg at h
    simp [setKey, Ne.symm h.1, ih h.2]

theorem foldl_setKey_fresh {α : Type} (ps : List (String × α)) :
    ∀ acc : List (String × α), (keysOf ps).Nodup →
    (∀ k ∈ keysOf ps, k ∉ keysOf acc) →
    ps.foldl (fun a kv => setKey kv.1 kv.2 a) acc = acc ++ ps := by
  induction ps with
  | nil => intro acc _ _; simp
  | cons p ps ih =>
    intro acc hnd hdisj
    simp only [keysOf, List.map_cons, List.nodup_cons] at hnd
    have hp : p.1 ∉ keysOf acc := hdisj p.1 (by simp [keysOf])
    simp only [List.foldl_cons, setKey_of_not_mem p.1 p.2 acc hp]
    rw [ih (acc ++ [p]) hnd.2 ?_]
    · simp
    · intro k hk
      simp only [keysOf, List.map_append, List.map_cons, List.map_nil, List.mem_append,
        List.mem_singleton]
      push_neg
      refine ⟨hdisj k (List.mem_cons_of_mem _ hk), ?_⟩
      intro he
      subst he
      exact hnd.1 hk

theorem dictOfPairs_self {α : Type} (ps : List (String × α)) (h : (keysOf ps).Nodup) :
    dictOfPairs ps = ps := by
  simpa [dictOfPairs] using foldl_setKey_fresh ps [] h (by simp [keysOf])

theorem ppEntry_ne_nil (k : String) (v : List Char) : ppEntry k v ≠ [] := by
  simp [ppEntry, ppJStr]

theorem ppEntriesSep_length_ge (lvl : Nat) (es : List (List Char))
    (h : ∀ e ∈ es, e ≠ []) : es.length ≤ (ppEntriesSep lvl es).length := by
  induction es with
  | nil => simp
  | cons e es ih =>
    cases es with
    | nil =>
      have he : e ≠ [] := h e (by simp)
      have : 1 ≤ e.length := List.length_pos.2 he
      simp only [ppEntriesSep, List.length_append, List.length_cons, List.length_nil]
      omega
    | cons e2 es2 =>
      have he : e ≠ [] := h e (by simp)
      have h1 : 1 ≤ e.length := List.length_pos.2 he
      have ihr := ih (fun x hx => h x (List.mem_cons_of_mem _ hx))
      simp only [ppEntriesSep, List.length_append, List.length_cons] at ihr ⊢
      omega

theorem length_le_ppObj (lvl : Nat) (es : List (List Char)) (h : ∀ e ∈ es, e ≠ []) :
    es.length ≤ (ppObj lvl es).length := by
  cases es with
  | nil => simp [ppObj]
  | cons e es2 =>
    have := ppEntriesSep_length_ge (lvl + 1) (e :: es2) h
    simp only [ppObj, List.cons_ne_nil, if_neg, reduceCtorEq, ite_false,
      List.length_cons, List.length_append] at this ⊢
    omega

theorem parseChatWarns_pp (lvl : Nat) (m : List (String × Nat)) (rest : List Char)
    (hm : (keysOf m).Nodup) :
    parseChatWarns (' ' :: (ppChatWarns lvl m ++ rest)) = some (m, rest) := by
  have hlen : m.length ≤ (' ' :: (ppChatWarns lvl m ++ rest)).length + 1 := by
    have h1 : m.length ≤ (ppChatWarns lvl m).length := by
      have := length_le_ppObj lvl (m.map (fun kv => ppEntry kv.1 (ppNat kv.2)))
        (by intro e he
            simp only [List.mem_map] at he
            obtain ⟨kv, _, rfl⟩ := he
            exact ppEntry_ne_nil _ _)
      simpa [ppChatWarns] using this
    simp only [List.length_cons, List.length_append]
    omega
  have hobj := parseObjWith_map (fun l2 => parseJNat (skipWs l2)) ppNat m lvl
    ((' ' :: (ppChatWarns lvl m ++ rest)).length + 1) rest
    (fun kv _ r2 hr2 => parseJNatVal_pp kv.2 r2 hr2) hlen
  simp only [ppChatWarns] at hobj
  simp only [parseChatWarns, ppChatWarns]
  rw [hobj]
  simp [dictOfPairs_self m hm]

theorem parseDocument_pp (d : Document) (h1 : (keysOf d.welcomes).Nodup)
    (h2 : (keysOf d.warns).Nodup) (h3 : ∀ kv ∈ d.warns, (keysOf kv.2).Nodup) :
    parseDocument (ppDocument d) = some (d, []) := by
  have hwlen : d.welcomes.length ≤
      (' ' :: (ppWelcomes 1 d.welcomes ++ (',' :: ('\n' :: (indentChars 1 ++
        (ppJStr ("warns") ++ (':' :: ' ' :: (ppWarns 1 d.warns ++
          ('\n' :: (indentChars 0 ++ ['\x7d'])))))))))).length + 1 := by
    have : d.welcomes.length ≤ (ppWelcomes 1 d.welcomes).length := by
      have := length_le_ppObj 1 (d.welcomes.map (fun kv => ppEntry kv.1 (ppCfg 2 kv.2)))
        (by intro e he
            simp only [List.mem_map] at he
            obtain ⟨kv, _, rfl⟩ := he
            exact ppEntry_ne_nil _ _)
      simpa [ppWelcomes] using this
    simp only [List.length_cons, List.length_append]
    omega
  have hwwlen : d.warns.length ≤ (' ' :: (ppWarns 1 d.warns ++ ('\n' :: (indentChars 0 ++ ['\x7d'])))).length + 1 := by
    have : d.warns.length ≤ (ppWarns 1 d.warns).length := by
      have := length_le_ppObj 1 (d.warns.map (fun kv => ppEntry kv.1 (ppChatWarns 2 kv.2)))
        (by intro e he
            simp only [List.mem_map] at he
            obtain ⟨kv, _, rfl⟩ := he
            exact ppEntry_ne_nil _ _)
      simpa [ppWarns] using this
    simp only [List.length_cons, List.length_append]
    omega
  have hw : parseObjWith parseCfg ((' ' :: (ppWelcomes 1 d.welcomes ++ (',' :: ('\n' :: (indentChars 1 ++ (ppJStr ("warns") ++ (':' :: ' ' :: (ppWarns 1 d.warns ++ ('\n' :: (indentChars 0 ++ ['\x7d'])))))))))).length + 1) (' ' :: (ppWelcomes 1 d.welcomes ++ (',' :: ('\n' :: (indentChars 1 ++ (ppJStr ("warns") ++ (':' :: ' ' :: (ppWarns 1 d.warns ++ ('\n' :: (indentChars 0 ++ ['\x7d'])))))))))) = some (d.welcomes, (',' :: ('\n' :: (indentChars 1 ++ (ppJStr ("warns") ++ (':' :: ' ' :: (ppWarns 1 d.warns ++ ('\n' :: (indentChars 0 ++ ['\x7d']))))))))) :=
    parseObjWith_map parseCfg (ppCfg 2) d.welcomes 1 _ _
      (fun kv _ r2 _ => parseCfg_pp 2 kv.2 r2) hwlen
  have hww : parseObjWith parseChatWarns ((' ' :: (ppWarns 1 d.warns ++ ('\n' :: (indentChars 0 ++ ['\x7d'])))).length + 1) (' ' :: (ppWarns 1 d.warns ++ ('\n' :: (indentChars 0 ++ ['\x7d'])))) = some (d.warns, ('\n' :: (indentChars 0 ++ ['\x7d']))) :=
    parseObjWith_map parseChatWarns (ppChatWarns 2) d.warns 1 _ _
      (fun kv hm r2 _ => parseChatWarns_pp 2 kv.2 r2 (h3 kv hm)) hwwlen
  simp only [parseDocument, ppDocument, ppObj, ppEntriesSep, ppEntry, List.cons_ne_nil,
    if_neg, reduceCtorEq, ite_false, List.append_assoc, List.cons_append,
    List.nil_append, zero_add, skipWs_cons_space, skipWs_cons_nl, skipWs_indent,
    skipWs_ppJStr, skipWs_cons_lbrace, skipWs_cons_rbrace, skipWs_cons_colon,
    skipWs_cons_comma, expectChar_cons, stripPre_append, Option.bind_some,
    Option.some_bind, bind, Option.bind, pure]
  rw [hw]
  simp only [skipWs_cons_comma, skipWs_cons_nl, skipWs_indent, skipWs_ppJStr,
    skipWs_cons_colon, expectChar_cons, stripPre_append]
  rw [hww]
  simp only [skipWs_cons_nl, skipWs_indent, skipWs_cons_rbrace, expectChar_cons,
    dictOfPairs_self d.welcomes h1, dictOfPairs_self d.warns h2]

/-- C9: for every persisted document (whose dict keys are, as in any real
Python dict, free of duplicates at each level), saving the document and
then loading it yields the identical document — `json.dump` followed by
`json.load` is the identity on the store, assuming the file I/O itself
succeeds. -/
theorem C9_save_load_round_trip (d : Document) (h1 : (keysOf d.welcomes).Nodup)
    (h2 : (keysOf d.warns).Nodup) (h3 : ∀ kv ∈ d.warns, (keysOf kv.2).Nodup) :
    load_store (save_store d) = d := by
  unfold load_store save_store
  simp only [parseDocument_pp d h1 h2 h3]
  rfl

/-- Witness for C9 at a concrete two-chat store holding a welcome config
(with channel link and live pointer) and warn counters. -/
theorem C9_save_load_round_trip_witness :
    load_store (save_store ⟨[("1", ⟨"hi \x7buser_mention\x7d", some ("https://t.me/x"), some 5⟩)],
        [("1", [("42", 3), ("43", 7)]), ("-100", [])]⟩) =
      ⟨[("1", ⟨"hi \x7buser_mention\x7d", some ("https://t.me/x"), some 5⟩)],
        [("1", [("42", 3), ("43", 7)]), ("-100", [])]⟩ :=
  C9_save_load_round_trip
    ⟨[("1", ⟨"hi \x7buser_mention\x7d", some ("https://t.me/x"), some 5⟩)],
      [("1", [("42", 3), ("43", 7)]), ("-100", [])]⟩
    (by decide) (by decide) (by decide)

end DresBot
